import Mathlib

/-!
# snstesting

A shallow embedding of the Go package `snstesting` (files `snstesting.go` and `api.go`)
and a verification of its specification.

Conventions of the embedding.

* A Go `string` is a Lean `String` (valid UTF-8 text); a `*string` is an `Option String`,
  `nil` being `none`; a pointer to an SDK output struct is an `Option` of that struct.
* A Go `error` is an `Option GoError`, `nil` being `none`.
* The remote services are arbitrary: a client is a record of functions over an arbitrary
  state `σ` of the remote side, so that every theorem quantified over the client and over
  `σ` covers every behaviour of the services.
* A Go function that talks to the services is a function from a `World` (remote state plus
  the log of the remote calls made so far) to an `Outcome` and a new `World`.  An outcome is
  a normal return, a run-time panic (nil dereference) or exhausted fuel (the only loop that
  is not bounded by its input is the paging loop of `findTopicArn`).
* Every remote call goes through `Go.call`, which appends the request and its reply to the
  log; the log is therefore the complete record of the calls of a run, in order.
* The functions of the Go standard library that the package calls (`strings.Contains`,
  `strings.Join`, `strings.ReplaceAll`, `fmt.Sprintf`, `fmt.Errorf`) are modelled after
  their documented behaviour.  `fmt.Errorf` is called by `combineErr` with a computed format
  and no operand, so the reading of a format by `fmt` is modelled for that case
  (`fmt.Sprintf0`): `%%` writes a percent sign, any other verb has no operand and writes
  `%!verb(MISSING)` (or one of the other error texts of `fmt`).
-/

namespace Snstesting

/-! ## The Go standard library functions the package uses -/

namespace strings

/-- Go `strings.Contains` on character lists: `sub` occurs in the text, scanning the start
positions from left to right. -/
def containsChars (sub : List Char) : List Char → Bool
  | [] => sub.isPrefixOf []
  | c :: cs => sub.isPrefixOf (c :: cs) || containsChars sub cs

/-- Go `strings.Contains(s, substr)`. -/
def Contains (s substr : String) : Bool :=
  containsChars substr.data s.data

/-- Go `strings.Join(elems, sep)` on character lists. -/
def joinChars (sep : List Char) : List (List Char) → List Char
  | [] => []
  | [a] => a
  | a :: b :: rest => a ++ sep ++ joinChars sep (b :: rest)

/-- Go `strings.Join(elems, sep)`. -/
def Join (elems : List String) (sep : String) : String :=
  String.mk (joinChars sep.data (elems.map String.data))

/-- The scan of `strings.ReplaceAll` for a non-empty `old`: `skip` counts the characters of
a match that was just replaced and that are still to be passed over. -/
def replaceScan (old new : List Char) : Nat → List Char → List Char
  | _, [] => []
  | skip + 1, _ :: cs => replaceScan old new skip cs
  | 0, c :: cs =>
    if old.isPrefixOf (c :: cs) then new ++ replaceScan old new (old.length - 1) cs
    else c :: replaceScan old new 0 cs

/-- The case of `strings.ReplaceAll` with an empty `old`: `new` is inserted before every
character and at the end. -/
def replaceEmpty (new : List Char) : List Char → List Char
  | [] => new
  | c :: cs => new ++ c :: replaceEmpty new cs

/-- Go `strings.ReplaceAll(s, old, new)`: all non-overlapping occurrences of `old`, found
from left to right, are replaced by `new`. -/
def ReplaceAll (s old new : String) : String :=
  if old.data.isEmpty then String.mk (replaceEmpty new.data s.data)
  else String.mk (replaceScan old.data new.data 0 s.data)

end strings

namespace fmt

/-- Go `fmt.tooLarge`: the bound on a width, precision or argument index. -/
def tooLarge (x : Nat) : Bool := decide (x > 1000000)

/-- The loop of Go `fmt.parsenum`: reads decimal digits; gives the number, whether a digit
was read, and the rest of the format.  When the number grows too large the scan gives up
at the end of the text. -/
def parsenumLoop : Nat → Bool → List Char → Nat × Bool × List Char
  | num, isnum, [] => (num, isnum, [])
  | num, isnum, c :: cs =>
    if c.isDigit then
      if tooLarge num then (0, false, [])
      else parsenumLoop (num * 10 + (c.toNat - 48)) true cs
    else (num, isnum, c :: cs)

/-- Go `fmt.parsenum` on the text up to its end. -/
def parsenum (cs : List Char) : Nat × Bool × List Char :=
  parsenumLoop 0 false cs

/-- Length in bytes of the UTF-8 encoding of a character list (Go `len` of a string). -/
def byteLen (cs : List Char) : Nat :=
  (cs.map Char.utf8Size).sum

/-- Go `fmt.parseArgNumber` on a text that starts with an opening square bracket: gives the
rest of the format after the index and whether the index is well formed.  (The value of
the index is not needed: with no operand every index is out of range.) -/
def parseArgNumber (cs : List Char) : List Char × Bool :=
  if byteLen cs < 3 then (cs.drop 1, false)
  else
    let body := (cs.drop 1).takeWhile (fun c => c != ']')
    match (cs.drop 1).dropWhile (fun c => c != ']') with
    | [] => (cs.drop 1, false)
    | _ :: rest =>
      let r := parsenum body
      (rest, r.2.1 && r.2.2.isEmpty)

/-- Go `(*pp).argNumber` for a call without operands: gives the rest of the format, the
flag `found` (an index was parsed) and whether `goodArgNum` was cleared. -/
def argNumber (cs : List Char) : List Char × Bool × Bool :=
  match cs with
  | '[' :: _ => let r := parseArgNumber cs; (r.1, r.2, true)
  | _ => (cs, false, false)

/-- The flag characters of a verb. -/
def isFlag (c : Char) : Bool :=
  c == '#' || c == '0' || c == '+' || c == '-' || c == ' '

/-- The width part of a verb, for a call without operands: rest of the format, text
written, `afterIndex`, and whether `goodArgNum` is cleared. -/
def width (cs : List Char) (afterIndex : Bool) : List Char × List Char × Bool × Bool :=
  match cs with
  | '*' :: rest => (rest, "%!(BADWIDTH)".data, false, false)
  | _ =>
    let r := parsenum cs
    (r.2.2, [], afterIndex, afterIndex && r.2.1)

/-- The precision part of a verb, for a call without operands: rest of the format, text
written, `afterIndex`, and whether `goodArgNum` is cleared. -/
def precision (cs : List Char) (afterIndex : Bool) : List Char × List Char × Bool × Bool :=
  match cs with
  | '.' :: c :: rest =>
    let a := argNumber (c :: rest)
    match a.1 with
    | '*' :: rest2 => (rest2, "%!(BADPREC)".data, false, afterIndex || a.2.2)
    | _ => ((parsenum a.1).2.2, [], a.2.1, afterIndex || a.2.2)
  | _ => (cs, [], afterIndex, false)

/-- One verb of Go `(*pp).doPrintf` for a call without operands; `cs` is the format after
the percent sign.  Gives the text written and the rest of the format (`none` when the
format ended inside the verb, which ends the formatting). -/
def verb (cs : List Char) : List Char × Option (List Char) :=
  let a := argNumber (cs.dropWhile isFlag)
  let w := width a.1 a.2.1
  let p := precision w.1 w.2.2.1
  let b := if p.2.2.1 then (p.1, p.2.2.1, false) else argNumber p.1
  let bad := a.2.2 || w.2.2.2 || p.2.2.2 || b.2.2
  match b.1 with
  | [] => (w.2.1 ++ p.2.1 ++ "%!(NOVERB)".data, none)
  | v :: rest =>
    if v == '%' then (w.2.1 ++ p.2.1 ++ ['%'], some rest)
    else if bad then (w.2.1 ++ p.2.1 ++ "%!".data ++ [v] ++ "(BADINDEX)".data, some rest)
    else (w.2.1 ++ p.2.1 ++ "%!".data ++ [v] ++ "(MISSING)".data, some rest)

/-- Go `(*pp).doPrintf(format, nil)`: the text is copied up to the next percent sign, then
one verb is processed; every round consumes at least the percent sign, so a fuel of the
length of the format is enough. -/
def doPrintf : Nat → List Char → List Char
  | 0, _ => []
  | fuel + 1, format =>
    let lit := format.takeWhile (fun c => c != '%')
    match format.dropWhile (fun c => c != '%') with
    | [] => lit
    | _ :: afterPercent =>
      match verb afterPercent with
      | (out, none) => lit ++ out
      | (out, some rest) => lit ++ out ++ doPrintf fuel rest

/-- Go `fmt.Sprintf(format)` with no operand. -/
def Sprintf0 (format : String) : String :=
  String.mk (doPrintf (format.data.length + 1) format.data)

/-- Go `fmt.Sprintf(pre + "%s" + post, s)` for a string operand `s` and literal texts
`pre`, `post` that hold no percent sign: the operand is written as it is. -/
def Sprintf_s (pre s post : String) : String :=
  pre ++ s ++ post

end fmt

/-- A non-nil Go `error` value.  `remote` is an error value made by a service client
(`code` tells apart values with the same text), `errorString` is the value that
`fmt.Errorf` makes. -/
inductive GoError where
  | remote (code : Nat) (msg : String)
  | errorString (s : String)
deriving DecidableEq, Repr

/-- The method `Error()` of an error value. -/
def GoError.Error : GoError → String
  | .remote _ msg => msg
  | .errorString s => s

namespace fmt

/-- Go `fmt.Errorf(format)` with no operand. -/
def Errorf0 (format : String) : GoError :=
  .errorString (Sprintf0 format)

/-- Go `fmt.Errorf(pre + "%s" + post, s)` for a string operand. -/
def Errorf_s (pre s post : String) : GoError :=
  .errorString (Sprintf_s pre s post)

/-- The text of an `error` operand under the verb `%v`: its `Error()`, or `<nil>`. -/
def verbV : Option GoError → String
  | some e => e.Error
  | none => "<nil>"

/-- Go `fmt.Errorf(pre + "%v", err)` for an `error` operand. -/
def Errorf_v (pre : String) (err : Option GoError) : GoError :=
  .errorString (Sprintf_s pre (verbV err) "")

end fmt

/-! ## The AWS SDK types, restricted to the fields the package reads or writes -/

/-- `sns/types.Topic`. -/
structure Topic where
  TopicArn : Option String := none
deriving DecidableEq, Repr

/-- `sns.ListTopicsInput`. -/
structure ListTopicsInput where
  NextToken : Option String := none
deriving DecidableEq, Repr

/-- `sns.ListTopicsOutput`. -/
structure ListTopicsOutput where
  NextToken : Option String := none
  Topics : List Topic := []
deriving DecidableEq, Repr

/-- `sns.SubscribeInput`. -/
structure SubscribeInput where
  Protocol : Option String := none
  TopicArn : Option String := none
  Endpoint : Option String := none
deriving DecidableEq, Repr

/-- `sns.SubscribeOutput`. -/
structure SubscribeOutput where
  SubscriptionArn : Option String := none
deriving DecidableEq, Repr

/-- `sns.UnsubscribeInput`. -/
structure UnsubscribeInput where
  SubscriptionArn : Option String := none
deriving DecidableEq, Repr

/-- `sns.UnsubscribeOutput`. -/
structure UnsubscribeOutput where
deriving DecidableEq, Repr

/-- `sqs.CreateQueueInput`. -/
structure CreateQueueInput where
  QueueName : Option String := none
deriving DecidableEq, Repr

/-- `sqs.CreateQueueOutput`. -/
structure CreateQueueOutput where
  QueueUrl : Option String := none
deriving DecidableEq, Repr

/-- `sqs.DeleteQueueInput`. -/
structure DeleteQueueInput where
  QueueUrl : Option String := none
deriving DecidableEq, Repr

/-- `sqs.DeleteQueueOutput`. -/
structure DeleteQueueOutput where
deriving DecidableEq, Repr

/-- A Go `map[string]string`, as the list of its entries; a nil map is the empty list. -/
abbrev StringMap := List (String × String)

/-- Reading a Go map: the value of the first entry with this key, the zero value `""`
when the key is missing. -/
def StringMap.get (m : StringMap) (key : String) : String :=
  match m.lookup key with
  | some v => v
  | none => ""

/-- `sqs/types.QueueAttributeNameQueueArn`. -/
def QueueAttributeNameQueueArn : String := "QueueArn"

/-- `sqs/types.QueueAttributeNamePolicy`. -/
def QueueAttributeNamePolicy : String := "Policy"

/-- `sqs.GetQueueAttributesInput`. -/
structure GetQueueAttributesInput where
  QueueUrl : Option String := none
  AttributeNames : List String := []
deriving DecidableEq, Repr

/-- `sqs.GetQueueAttributesOutput`. -/
structure GetQueueAttributesOutput where
  Attributes : StringMap := []
deriving DecidableEq, Repr

/-- `sqs.SetQueueAttributesInput`. -/
structure SetQueueAttributesInput where
  QueueUrl : Option String := none
  Attributes : StringMap := []
deriving DecidableEq, Repr

/-- `sqs.SetQueueAttributesOutput`. -/
structure SetQueueAttributesOutput where
deriving DecidableEq, Repr

/-- `sqs/types.Message`. -/
structure Message where
  Body : Option String := none
deriving DecidableEq, Repr

/-- `sqs.ReceiveMessageInput`. -/
structure ReceiveMessageInput where
  QueueUrl : Option String := none
  MaxNumberOfMessages : Int := 0
  VisibilityTimeout : Int := 0
  WaitTimeSeconds : Int := 0
deriving DecidableEq, Repr

/-- `sqs.ReceiveMessageOutput`. -/
structure ReceiveMessageOutput where
  Messages : List Message := []
deriving DecidableEq, Repr

/-! ## The remote services (`api.go`) -/

/-- What a remote call gives back: a possibly nil output and a possibly nil error. -/
abbrev Reply (α : Type) := Option α × Option GoError

/-- `SNSAPI`: the part of the SNS client the package calls.  `σ` is the state of the remote
side; a call reads it and leaves a new one. -/
structure SNSAPI (σ : Type) where
  ListTopics : ListTopicsInput → σ → Reply ListTopicsOutput × σ
  Subscribe : SubscribeInput → σ → Reply SubscribeOutput × σ
  Unsubscribe : UnsubscribeInput → σ → Reply UnsubscribeOutput × σ

/-- `SQSAPI`: the part of the SQS client the package calls. -/
structure SQSAPI (σ : Type) where
  CreateQueue : CreateQueueInput → σ → Reply CreateQueueOutput × σ
  DeleteQueue : DeleteQueueInput → σ → Reply DeleteQueueOutput × σ
  GetQueueAttributes : GetQueueAttributesInput → σ → Reply GetQueueAttributesOutput × σ
  SetQueueAttributes : SetQueueAttributesInput → σ → Reply SetQueueAttributesOutput × σ
  ReceiveMessage : ReceiveMessageInput → σ → Reply ReceiveMessageOutput × σ

/-- One remote call as it is logged: the request that was sent and the reply it got. -/
inductive Event where
  | ListTopics (input : ListTopicsInput) (reply : Reply ListTopicsOutput)
  | Subscribe (input : SubscribeInput) (reply : Reply SubscribeOutput)
  | Unsubscribe (input : UnsubscribeInput) (reply : Reply UnsubscribeOutput)
  | CreateQueue (input : CreateQueueInput) (reply : Reply CreateQueueOutput)
  | DeleteQueue (input : DeleteQueueInput) (reply : Reply DeleteQueueOutput)
  | GetQueueAttributes (input : GetQueueAttributesInput) (reply : Reply GetQueueAttributesOutput)
  | SetQueueAttributes (input : SetQueueAttributesInput) (reply : Reply SetQueueAttributesOutput)
  | ReceiveMessage (input : ReceiveMessageInput) (reply : Reply ReceiveMessageOutput)
deriving DecidableEq, Repr

/-- The world a Go function runs in: the state of the remote side and the log of the
remote calls made so far, oldest first. -/
structure World (σ : Type) where
  remote : σ
  log : List Event

/-- How the run of a Go function ends. -/
inductive Outcome (α : Type) where
  | returned (a : α)
  | panicked
  | outOfFuel
deriving DecidableEq

/-- A Go function with effects on the remote side. -/
abbrev Go (σ α : Type) := World σ → Outcome α × World σ

/-- Normal return of a value. -/
def Go.pure {σ α : Type} (a : α) : Go σ α :=
  fun w => (.returned a, w)

/-- Run-time panic. -/
def Go.panic {σ α : Type} : Go σ α :=
  fun w => (.panicked, w)

/-- Sequencing: the second part runs when the first returns. -/
def Go.bind {σ α β : Type} (m : Go σ α) (f : α → Go σ β) : Go σ β :=
  fun w =>
    match m w with
    | (.returned a, w1) => f a w1
    | (.panicked, w1) => (.panicked, w1)
    | (.outOfFuel, w1) => (.outOfFuel, w1)

/-- A method call on a client held in an interface value: a nil interface panics,
otherwise the call runs on the remote state and is logged with its reply. -/
def Go.call {σ κ α : Type} (cli : Option κ) (op : κ → σ → Reply α × σ)
    (ev : Reply α → Event) : Go σ (Reply α) :=
  fun w =>
    match cli with
    | none => (.panicked, w)
    | some c => (.returned (op c w.remote).1, ⟨(op c w.remote).2, w.log ++ [ev (op c w.remote).1]⟩)

/-- Dereference of a `*string`. -/
def Go.deref {σ : Type} : Option String → Go σ String
  | some s => Go.pure s
  | none => Go.panic

/-! ## The package (`snstesting.go`) -/

/-- `Config`. -/
structure Config where
  TopicName : String := ""
  TopicARN : String := ""
  QueueName : String := ""
  QueueURL : String := ""
  QueueARN : String := ""
  SubscriptionARN : String := ""
deriving DecidableEq, Repr

/-- `Subscriber`. -/
structure Subscriber (σ : Type) where
  SNS : Option (SNSAPI σ) := none
  SQS : Option (SQSAPI σ) := none
  Config : Config := {}

/-- `policyTemplate`. -/
def policyTemplate : String :=
  "\n\x7b\n   \"Version\": \"2012-10-17\",\n   \"Statement\": [\n     \x7b\n       \"Sid\": \"allow-sns-messages\",\n       \"Effect\": \"Allow\",\n       \"Principal\": \"*\",\n       \"Resource\": \"<<QUEUE_ARN>>\",\n       \"Action\": \"SQS:SendMessage\",\n       \"Condition\": \x7b\n         \"ArnEquals\": \x7b\n           \"aws:SourceArn\": \"<<TOPIC_ARN>>\"\n         \x7d\n       \x7d\n     \x7d\n  ]\n\x7d\n"

/-- `combineErr`: the texts of the non-nil errors are collected in order; when there is
one, they are joined by a comma and the result is used as the format of `fmt.Errorf`. -/
def combineErr (errs : List (Option GoError)) : Option GoError :=
  let v := errs.filterMap (fun err => err.map GoError.Error)
  if v.length > 0 then some (fmt.Errorf0 (strings.Join v ",")) else none

/-- `rndString`: `n` letters, the `i`-th being `letters[rand.Intn(len(letters))]`; `rand i`
is the `i`-th number the random source yields, reduced by `Intn` to the range. -/
def rndString (rand : Nat → Nat) (n : Nat) : String :=
  let letters := "abcdefghijklmnopqrstuvwxyzABCDEFGHIJKLMNOPQRSTUVWXYZ1234567890".data
  String.mk ((List.range n).map (fun i => letters.getD (rand i % letters.length) 'a'))

/-- `cleanupQueue`. -/
def cleanupQueue {σ : Type} (SQS : Option (SQSAPI σ)) (queueURL : String) : Go σ (Option GoError) :=
  Go.bind (Go.call SQS (fun c => c.DeleteQueue { QueueUrl := some queueURL }) (Event.DeleteQueue { QueueUrl := some queueURL }))
    fun r => Go.pure r.2

/-- `unsubscribe`. -/
def unsubscribe {σ : Type} (SNS : Option (SNSAPI σ)) (subscriptionARN : String) : Go σ (Option GoError) :=
  Go.bind (Go.call SNS (fun c => c.Unsubscribe { SubscriptionArn := some subscriptionARN }) (Event.Unsubscribe { SubscriptionArn := some subscriptionARN }))
    fun r => Go.pure r.2

/-- The inner loop of `findTopicArn` over the topics of one page: the first topic whose
ARN is not nil and contains the name. -/
def scanTopics (topicName : String) : List Topic → Option String
  | [] => none
  | topic :: rest =>
    match topic.TopicArn with
    | some arn => if strings.Contains arn topicName then some arn else scanTopics topicName rest
    | none => scanTopics topicName rest

/-- The paging loop of `findTopicArn`; one unit of fuel per round. -/
def findTopicArnLoop {σ : Type} (cli : Option (SNSAPI σ)) (topicName : String) :
    Nat → Option String → Go σ (String × Option GoError)
  | 0, _ => fun w => (.outOfFuel, w)
  | fuel + 1, nextToken =>
    Go.bind (Go.call cli (fun c => c.ListTopics { NextToken := nextToken }) (Event.ListTopics { NextToken := nextToken }))
      fun r =>
        match r.2 with
        | some err => Go.pure ("", some err)
        | none =>
          match r.1 with
          | none => Go.panic
          | some out =>
            match scanTopics topicName out.Topics with
            | some arn => Go.pure (arn, none)
            | none =>
              match out.NextToken with
              | none => Go.pure ("", some (fmt.Errorf_s "topic " topicName " not found"))
              | some t => findTopicArnLoop cli topicName fuel (some t)

/-- `findTopicArn`. -/
def findTopicArn {σ : Type} (fuel : Nat) (cli : Option (SNSAPI σ)) (topicName : String) :
    Go σ (String × Option GoError) :=
  findTopicArnLoop cli topicName fuel none

/-- The failure return of `NewSubscriber` once the queue exists:
`fmt.Errorf(pre + "%v", combineErr(err, cleanupQueue(ctx, SQS, *createQueueOutput.QueueUrl)))`
together with the zero `Subscriber`.  The URL is dereferenced before `cleanupQueue` runs. -/
def failWithCleanup {σ : Type} (SQS : Option (SQSAPI σ)) (pre : String) (err : GoError)
    (QueueUrl : Option String) : Go σ (Subscriber σ × Option GoError) :=
  Go.bind (Go.deref QueueUrl) fun queueURL =>
  Go.bind (cleanupQueue SQS queueURL) fun cleanupErr =>
  Go.pure ({}, some (fmt.Errorf_v pre (combineErr [some err, cleanupErr])))

/-- `NewSubscriber`.  `fuel` bounds the paging loop of `findTopicArn`, `rand` is the random
source of `rndString`. -/
def NewSubscriber {σ : Type} (fuel : Nat) (rand : Nat → Nat) (SNS : Option (SNSAPI σ))
    (SQS : Option (SQSAPI σ)) (topicName : String) : Go σ (Subscriber σ × Option GoError) :=
  Go.bind (findTopicArn fuel SNS topicName) fun found =>
  match found.2 with
  | some err => Go.pure ({}, some err)
  | none =>
    let topicArn := found.1
    let testingQueueName := fmt.Sprintf_s "snstesting_" (rndString rand 20) ""
    Go.bind (Go.call SQS (fun c => c.CreateQueue { QueueName := some testingQueueName })
      (Event.CreateQueue { QueueName := some testingQueueName })) fun created =>
    match created.2 with
    | some err => Go.pure ({}, some err)
    | none =>
      match created.1 with
      | none => Go.panic
      | some createQueueOutput =>
        Go.bind (Go.call SQS
          (fun c => c.GetQueueAttributes
            { QueueUrl := createQueueOutput.QueueUrl, AttributeNames := [QueueAttributeNameQueueArn] })
          (Event.GetQueueAttributes
            { QueueUrl := createQueueOutput.QueueUrl, AttributeNames := [QueueAttributeNameQueueArn] }))
          fun attrs =>
        match attrs.2 with
        | some err =>
          failWithCleanup SQS "get queue attributes failure: " err createQueueOutput.QueueUrl
        | none =>
          match attrs.1 with
          | none => Go.panic
          | some queueAttrsOutput =>
            let queueArn := queueAttrsOutput.Attributes.get QueueAttributeNameQueueArn
            let policy := strings.ReplaceAll
              (strings.ReplaceAll policyTemplate "<<TOPIC_ARN>>" topicArn) "<<QUEUE_ARN>>" queueArn
            Go.bind (Go.call SQS
              (fun c => c.SetQueueAttributes
                { QueueUrl := createQueueOutput.QueueUrl,
                  Attributes := [(QueueAttributeNamePolicy, policy)] })
              (Event.SetQueueAttributes
                { QueueUrl := createQueueOutput.QueueUrl,
                  Attributes := [(QueueAttributeNamePolicy, policy)] })) fun setAttrs =>
            match setAttrs.2 with
            | some err =>
              failWithCleanup SQS "set queue attributes failure: " err createQueueOutput.QueueUrl
            | none =>
              Go.bind (Go.call SNS
                (fun c => c.Subscribe
                  { Protocol := some "sqs", TopicArn := some topicArn, Endpoint := some queueArn })
                (Event.Subscribe
                  { Protocol := some "sqs", TopicArn := some topicArn, Endpoint := some queueArn }))
                fun subscribed =>
              match subscribed.2 with
              | some err =>
                failWithCleanup SQS "subscribe failure: " err createQueueOutput.QueueUrl
              | none =>
                Go.bind (Go.deref createQueueOutput.QueueUrl) fun queueURL =>
                match subscribed.1 with
                | none => Go.panic
                | some subscribeOutput =>
                  Go.bind (Go.deref subscribeOutput.SubscriptionArn) fun subscriptionARN =>
                  Go.pure
                    ({ SNS := SNS, SQS := SQS,
                       Config :=
                        { TopicName := topicName, TopicARN := topicArn,
                          QueueName := testingQueueName, QueueURL := queueURL,
                          QueueARN := queueArn, SubscriptionARN := subscriptionARN } }, none)

/-- `Subscriber.Receive`. -/
def Subscriber.Receive {σ : Type} (s : Subscriber σ) : Go σ (String × Option GoError) :=
  Go.bind (Go.call s.SQS
    (fun c => c.ReceiveMessage
      { QueueUrl := some s.Config.QueueURL, MaxNumberOfMessages := 1,
        VisibilityTimeout := 3600, WaitTimeSeconds := 3 })
    (Event.ReceiveMessage
      { QueueUrl := some s.Config.QueueURL, MaxNumberOfMessages := 1,
        VisibilityTimeout := 3600, WaitTimeSeconds := 3 })) fun polled =>
  match polled.2 with
  | some err => Go.pure ("", some err)
  | none =>
    match polled.1 with
    | none => Go.panic
    | some receiveOut =>
      match receiveOut.Messages with
      | first :: _ => Go.bind (Go.deref first.Body) fun body => Go.pure (body, none)
      | [] => Go.pure ("", none)

/-- `Subscriber.Cleanup`: both arguments of `combineErr` are evaluated, left to right. -/
def Subscriber.Cleanup {σ : Type} (s : Subscriber σ) : Go σ (Option GoError) :=
  Go.bind (unsubscribe s.SNS s.Config.SubscriptionARN) fun unsubscribeErr =>
  Go.bind (cleanupQueue s.SQS s.Config.QueueURL) fun cleanupErr =>
  Go.pure (combineErr [unsubscribeErr, cleanupErr])

/-! ## Scripted services, used to run the package on concrete inputs -/

/-- An SNS client in the manner of the mocks of the test file: the remote state counts the
`ListTopics` calls served, the `n`-th call is answered by the `n`-th entry of `listing`
(a call past the script is answered by an error), `Subscribe` and `Unsubscribe` have a
fixed reply. -/
def scriptedSNS (listing : List (Reply ListTopicsOutput)) (subscribe : Reply SubscribeOutput)
    (unsub : Reply UnsubscribeOutput) : SNSAPI Nat where
  ListTopics := fun _ n => (listing.getD n (none, some (.remote 0 "unexpected call")), n + 1)
  Subscribe := fun _ n => (subscribe, n)
  Unsubscribe := fun _ n => (unsub, n)

/-- An SQS client with a fixed reply for every operation. -/
def scriptedSQS (create : Reply CreateQueueOutput) (getAttrs : Reply GetQueueAttributesOutput)
    (setAttrs : Reply SetQueueAttributesOutput) (delete : Reply DeleteQueueOutput)
    (receive : Reply ReceiveMessageOutput) : SQSAPI Nat where
  CreateQueue := fun _ n => (create, n)
  DeleteQueue := fun _ n => (delete, n)
  GetQueueAttributes := fun _ n => (getAttrs, n)
  SetQueueAttributes := fun _ n => (setAttrs, n)
  ReceiveMessage := fun _ n => (receive, n)

/-- The world before any call. -/
def World.start : World Nat := ⟨0, []⟩

/-! ## Notions of the specification -/

/-- The ARNs a listing holds, page after page and within a page topic after topic; a topic
without ARN contributes nothing. -/
def listedArns : List ListTopicsOutput → List String
  | [] => []
  | p :: ps => p.Topics.filterMap (fun t => t.TopicArn) ++ listedArns ps

/-- The client serves the finite listing `pages` when asked with token `tok` in remote
state `s`: the call for `tok` gives the first page without error, every page but the last
carries a `NextToken` under which the rest of the listing is served, and the last page
carries none. -/
def ServesListing {σ : Type} (cli : SNSAPI σ) : List ListTopicsOutput → Option String → σ → Prop
  | [], _, _ => False
  | [p], tok, s => (cli.ListTopics { NextToken := tok } s).1 = (some p, none) ∧ p.NextToken = none
  | p :: q :: ps, tok, s =>
    (cli.ListTopics { NextToken := tok } s).1 = (some p, none) ∧ p.NextToken ≠ none ∧
      ServesListing cli (q :: ps) p.NextToken (cli.ListTopics { NextToken := tok } s).2

/-- What topic resolution owes on a listing: the first listed ARN that contains the name
as a substring, or the error saying that the topic was not found. -/
def firstMatch (topicName : String) (pages : List ListTopicsOutput) : String × Option GoError :=
  match (listedArns pages).find? (fun arn => decide (topicName.data <:+: arn.data)) with
  | some arn => (arn, none)
  | none => ("", some (.errorString ("topic " ++ topicName ++ " not found")))

/-- The policy document `NewSubscriber` builds for a topic ARN and a queue ARN: the two
`strings.ReplaceAll` steps on `policyTemplate`, the topic first. -/
def policyDocument (topicArn queueArn : String) : String :=
  strings.ReplaceAll (strings.ReplaceAll policyTemplate "<<TOPIC_ARN>>" topicArn) "<<QUEUE_ARN>>" queueArn

/-- The text of the error a run returned, if it returned one. -/
def Outcome.errorText {α : Type} : Outcome (α × Option GoError) → Option String
  | .returned (_, some e) => some e.Error
  | _ => none

/-- The SNS mock of the tests of `NewSubscriber`: a listing of one page that holds the
topic `arn:foo:bar:sometopic`, and a given reply to `Subscribe`. -/
def testSNS (subscribe : Reply SubscribeOutput) : SNSAPI Nat :=
  scriptedSNS [(some { Topics := [{ TopicArn := some "arn:foo:bar:sometopic" }] }, none)]
    subscribe (some {}, none)

/-- The SQS mock of the tests of `NewSubscriber`: `CreateQueue` returns the URL
`http://queue.url`; the replies of the other calls are given. -/
def testSQS (getAttrs : Reply GetQueueAttributesOutput) (setAttrs : Reply SetQueueAttributesOutput)
    (delete : Reply DeleteQueueOutput) : SQSAPI Nat :=
  scriptedSQS (some { QueueUrl := some "http://queue.url" }, none) getAttrs setAttrs delete
    (none, none)

/-- The reply of `GetQueueAttributes` in the tests. -/
def testAttrs : Reply GetQueueAttributesOutput :=
  (some { Attributes := [("QueueArn", "arn:foo:bar:testingqueue")] }, none)

/-- The computation only adds to the log: the log it starts from is a beginning of the log
it leaves, whatever the outcome. -/
def Go.Extends {σ α : Type} (m : Go σ α) : Prop :=
  ∀ w, w.log <+: (m w).2.log

/-- The text of `policyTemplate` before the placeholder of the queue ARN. -/
def policyHead : String :=
  "\n\x7b\n   \"Version\": \"2012-10-17\",\n   \"Statement\": [\n     \x7b\n       \"Sid\": \"allow-sns-messages\",\n       \"Effect\": \"Allow\",\n       \"Principal\": \"*\",\n       \"Resource\": \""

/-- The text of `policyTemplate` between the two placeholders. -/
def policyMiddle : String :=
  "\",\n       \"Action\": \"SQS:SendMessage\",\n       \"Condition\": \x7b\n         \"ArnEquals\": \x7b\n           \"aws:SourceArn\": \""

/-- The text of `policyTemplate` after the placeholder of the topic ARN. -/
def policyTail : String :=
  "\"\n         \x7d\n       \x7d\n     \x7d\n  ]\n\x7d\n"

/-- The two texts disagree at a position both have: then `old` is no beginning of any
text that begins with `s`. -/
def clash : List Char → List Char → Bool
  | o :: os, c :: cs => o != c || clash os cs
  | _, _ => false

/-- No occurrence of `old` starts inside the text, whatever follows the text. -/
def suffixesClash (old : List Char) : List Char → Bool
  | [] => true
  | c :: cs => clash old (c :: cs) && suffixesClash old cs

/-- The policy documents sent in the `SetQueueAttributes` calls of a log, in order. -/
def sentPolicies : List Event → List String
  | [] => []
  | Event.SetQueueAttributes input _ :: rest => input.Attributes.get "Policy" :: sentPolicies rest
  | _ :: rest => sentPolicies rest

/-- The `ListTopics` calls of one topic resolution for `topicName`, as they may follow each
other from the token `tok` on: every call carries the token that is due, the first one
`tok`; a call is followed by another one only if it replied without error with a page that
holds no ARN containing the name and that carries a `NextToken`, and the next call then
carries exactly that token. -/
def CallChain (topicName : String) : Option String → List Event → Prop
  | _, [] => True
  | tok, Event.ListTopics input reply :: rest =>
    input.NextToken = tok ∧
    (rest = [] ∨
      ∃ out t, reply = (some out, none) ∧ out.NextToken = some t ∧
        (∀ arn ∈ listedArns [out], ¬ topicName.data <:+: arn.data) ∧
        CallChain topicName (some t) rest)
  | _, _ :: _ => False

/-- The precondition on the services: every remote call that replies with a nil error also
replies with a non-nil output, in which the `QueueUrl` (for `CreateQueue`), the
`SubscriptionArn` (for `Subscribe`) and the `Body` of the first message (for
`ReceiveMessage`) are present. -/
def RepliesComplete {σ : Type} (sns : SNSAPI σ) (sqs : SQSAPI σ) : Prop :=
  (∀ i s, (sns.ListTopics i s).1.2 = none → (sns.ListTopics i s).1.1 ≠ none) ∧
  (∀ i s, (sns.Subscribe i s).1.2 = none →
    ∃ arn, (sns.Subscribe i s).1.1 = some { SubscriptionArn := some arn }) ∧
  (∀ i s, (sns.Unsubscribe i s).1.2 = none → (sns.Unsubscribe i s).1.1 ≠ none) ∧
  (∀ i s, (sqs.CreateQueue i s).1.2 = none →
    ∃ url, (sqs.CreateQueue i s).1.1 = some { QueueUrl := some url }) ∧
  (∀ i s, (sqs.DeleteQueue i s).1.2 = none → (sqs.DeleteQueue i s).1.1 ≠ none) ∧
  (∀ i s, (sqs.GetQueueAttributes i s).1.2 = none → (sqs.GetQueueAttributes i s).1.1 ≠ none) ∧
  (∀ i s, (sqs.SetQueueAttributes i s).1.2 = none → (sqs.SetQueueAttributes i s).1.1 ≠ none) ∧
  (∀ i s, (sqs.ReceiveMessage i s).1.2 = none →
    ∃ out, (sqs.ReceiveMessage i s).1.1 = some out ∧
      ∀ m rest, out.Messages = m :: rest → m.Body ≠ none)
/-- An SQS mock all of whose replies are complete: a URL for `CreateQueue`, the attribute
`QueueArn`, and one message with a body for `ReceiveMessage`. -/
def completeSQS : SQSAPI Nat :=
  scriptedSQS (some { QueueUrl := some "http://queue.url" }, none) testAttrs (some {}, none)
    (some {}, none) (some { Messages := [{ Body := some "this is the message!" }] }, none)

/-! ## Lemmas on the library functions -/

theorem strings.containsChars_iff (sub s : List Char) :
    strings.containsChars sub s = true ↔ sub <:+: s := by
  induction s with
  | nil => simp [strings.containsChars, List.isPrefixOf_iff_prefix]
  | cons c cs ih =>
    simp [strings.containsChars, List.infix_cons_iff, ih]

theorem strings.Contains_iff (s substr : String) :
    strings.Contains s substr = true ↔ substr.data <:+: s.data := by
  simp [strings.Contains, strings.containsChars_iff]

/-! ## Topic resolution -/

theorem scanTopics_eq_find (topicName : String) (topics : List Topic) :
    scanTopics topicName topics =
      (topics.filterMap (fun t => t.TopicArn)).find?
        (fun arn => decide (topicName.data <:+: arn.data)) := by
  induction topics with
  | nil => rfl
  | cons t ts ih =>
    cases h : t.TopicArn with
    | none => simp [scanTopics, h, ih]
    | some arn =>
      by_cases hc : topicName.data <:+: arn.data
      · simp [scanTopics, h, List.find?_cons, hc, (strings.Contains_iff arn topicName).2 hc]
      · have hc2 : strings.Contains arn topicName = false := by
          rw [← Bool.not_eq_true, strings.Contains_iff]; exact hc
        simp [scanTopics, h, List.find?_cons, hc, hc2, ih]

theorem findTopicArnLoop_listing {σ : Type} (cli : SNSAPI σ) (topicName : String) :
    ∀ (pages : List ListTopicsOutput) (tok : Option String) (w : World σ) (fuel : Nat),
      ServesListing cli pages tok w.remote → pages.length ≤ fuel →
      (findTopicArnLoop (some cli) topicName fuel tok w).1
        = .returned (firstMatch topicName pages) := by
  intro pages
  induction pages with
  | nil => intro tok w fuel h; exact absurd h (by simp [ServesListing])
  | cons p ps ih =>
    intro tok w fuel hs hf
    obtain ⟨n, rfl⟩ : ∃ n, fuel = n + 1 := ⟨fuel - 1, by simp at hf; omega⟩
    cases ps with
    | nil =>
      obtain ⟨h1, h2⟩ := hs
      simp only [findTopicArnLoop, Go.bind, Go.call, h1, h2, scanTopics_eq_find, firstMatch,
        listedArns, List.append_nil]
      cases (p.Topics.filterMap (fun t => t.TopicArn)).find?
        (fun arn => decide (topicName.data <:+: arn.data)) <;> rfl
    | cons q qs =>
      obtain ⟨h1, h2, h3⟩ := hs
      obtain ⟨t, ht⟩ := Option.ne_none_iff_exists'.1 h2
      have hrec := ih (some t) ⟨(cli.ListTopics { NextToken := tok } w.remote).2,
        w.log ++ [Event.ListTopics { NextToken := tok } (cli.ListTopics { NextToken := tok } w.remote).1]⟩ n
        (by simpa [ht] using h3) (by simpa using hf)
      simp only [findTopicArnLoop, Go.bind, Go.call, h1, ht, scanTopics_eq_find]
      rw [firstMatch]
      simp only [listedArns, List.find?_append]
      cases hfind : (p.Topics.filterMap (fun t => t.TopicArn)).find?
        (fun arn => decide (topicName.data <:+: arn.data)) with
      | some arn => simp [Go.pure]
      | none =>
        simp only [Option.none_or]
        rw [h1] at hrec
        rw [hrec, firstMatch]
        simp [listedArns]

/-- C1: on a finite listing of N pages served in order, `findTopicArn` (given fuel for N
rounds) returns, with a nil error, the first ARN of the listing, in the order of the pages
and of the topics within a page, that contains the topic name as a substring; and it
returns the error `topic <name> not found` exactly when no ARN of any page contains the
name. -/
theorem findTopicArn_first_match {σ : Type} (cli : SNSAPI σ) (topicName : String)
    (pages : List ListTopicsOutput) (w : World σ) (fuel : Nat)
    (hserve : ServesListing cli pages none w.remote) (hfuel : pages.length ≤ fuel) :
    (∀ arn, (listedArns pages).find? (fun a => decide (topicName.data <:+: a.data)) = some arn →
      (findTopicArn fuel (some cli) topicName w).1 = .returned (arn, none)) ∧
    ((findTopicArn fuel (some cli) topicName w).1
        = .returned ("", some (.errorString ("topic " ++ topicName ++ " not found")))
      ↔ ∀ arn ∈ listedArns pages, ¬ topicName.data <:+: arn.data) := by
  have h := findTopicArnLoop_listing cli topicName pages none w fuel hserve hfuel
  unfold findTopicArn
  rw [h, firstMatch]
  refine ⟨fun arn harn => by rw [harn], ?_⟩
  cases hfind : (listedArns pages).find? (fun a => decide (topicName.data <:+: a.data)) with
  | none =>
    simp only [true_iff]
    intro arn harn
    simpa using List.find?_eq_none.1 hfind arn harn
  | some arn =>
    have hmem := List.mem_of_find?_eq_some hfind
    have hsat := List.find?_some hfind
    simp only [Outcome.returned.injEq, Prod.mk.injEq, reduceCtorEq, and_false, false_iff, not_forall]
    exact ⟨arn, hmem, by simpa using hsat⟩

/-- C1, on the listing of the paging test: two pages, the match on the second. -/
theorem findTopicArn_first_match_witness :
    ServesListing
        (scriptedSNS
          [(some { NextToken := some "page 2", Topics := [{ TopicArn := some "arn:foo:bar" }] }, none),
           (some { Topics := [{ TopicArn := some "arn:foo:bar:sometopic" }] }, none)]
          (none, none) (none, none))
        [{ NextToken := some "page 2", Topics := [{ TopicArn := some "arn:foo:bar" }] },
         { Topics := [{ TopicArn := some "arn:foo:bar:sometopic" }] }]
        none World.start.remote ∧
    (findTopicArn 2
        (some (scriptedSNS
          [(some { NextToken := some "page 2", Topics := [{ TopicArn := some "arn:foo:bar" }] }, none),
           (some { Topics := [{ TopicArn := some "arn:foo:bar:sometopic" }] }, none)]
          (none, none) (none, none)))
        "sometopic" World.start).1 = .returned ("arn:foo:bar:sometopic", none) :=
  ⟨⟨rfl, by decide, rfl, rfl⟩,
   (findTopicArn_first_match _ "sometopic"
      [{ NextToken := some "page 2", Topics := [{ TopicArn := some "arn:foo:bar" }] },
       { Topics := [{ TopicArn := some "arn:foo:bar:sometopic" }] }]
      World.start 2 ⟨rfl, by decide, rfl, rfl⟩ (by decide)).1 "arn:foo:bar:sometopic" (by decide)⟩

/-! ## Inversion of the effects -/

theorem Go.bind_returned {σ α β : Type} {m : Go σ α} {f : α → Go σ β} {w w2 : World σ} {b : β}
    (h : Go.bind m f w = (.returned b, w2)) :
    ∃ a w1, m w = (.returned a, w1) ∧ f a w1 = (.returned b, w2) := by
  unfold Go.bind at h
  split at h
  · exact ⟨_, _, by assumption, h⟩
  · simp at h
  · simp at h

theorem Go.call_returned {σ κ α : Type} {cli : Option κ} {op : κ → σ → Reply α × σ}
    {ev : Reply α → Event} {w w2 : World σ} {r : Reply α}
    (h : Go.call cli op ev w = (.returned r, w2)) :
    ∃ c, cli = some c ∧ (op c w.remote).1 = r ∧ w2 = ⟨(op c w.remote).2, w.log ++ [ev r]⟩ := by
  unfold Go.call at h
  cases cli with
  | none => simp at h
  | some c =>
    simp only [Prod.mk.injEq, Outcome.returned.injEq] at h
    obtain ⟨h1, h2⟩ := h
    subst h1
    exact ⟨c, rfl, rfl, h2.symm⟩

theorem Go.deref_returned {σ : Type} {p : Option String} {w w2 : World σ} {s : String}
    (h : Go.deref p w = (.returned s, w2)) : p = some s ∧ w2 = w := by
  cases p with
  | none => simp [Go.deref, Go.panic] at h
  | some v => simpa [Go.deref, Go.pure, eq_comm] using h

theorem failWithCleanup_returned {σ : Type} {SQS : Option (SQSAPI σ)} {pre : String} {err : GoError}
    {QueueUrl : Option String} {w w2 : World σ} {sub : Subscriber σ} {e : Option GoError}
    (h : failWithCleanup SQS pre err QueueUrl w = (.returned (sub, e), w2)) :
    sub = {} ∧ e ≠ none := by
  unfold failWithCleanup at h
  obtain ⟨_, _, _, h⟩ := Go.bind_returned h
  obtain ⟨_, _, _, h⟩ := Go.bind_returned h
  simp only [Go.pure, Prod.mk.injEq, Outcome.returned.injEq] at h
  obtain ⟨⟨h1, h2⟩, _⟩ := h
  exact ⟨h1.symm, by rw [← h2]; simp⟩

/-! ## The runs of `NewSubscriber` -/

/-- A run that returns a nil error went through every step: the clients are there, every
call succeeded and returned what is dereferenced, and the world is the one after topic
resolution extended by the four calls. -/
theorem NewSubscriber_success_inv {σ : Type} {fuel : Nat} {rand : Nat → Nat}
    {SNS : Option (SNSAPI σ)} {SQS : Option (SQSAPI σ)} {topicName : String} {w w2 : World σ}
    {sub : Subscriber σ}
    (h : NewSubscriber fuel rand SNS SQS topicName w = (.returned (sub, none), w2)) :
    ∃ (sns : SNSAPI σ) (sqs : SQSAPI σ) (topicArn url subArn : String) (w1 : World σ)
      (attrs : GetQueueAttributesOutput) (setOut : Option SetQueueAttributesOutput) (s2 s3 s4 s5 : σ),
      SNS = some sns ∧ SQS = some sqs ∧
      findTopicArn fuel SNS topicName w = (.returned (topicArn, none), w1) ∧
      sqs.CreateQueue { QueueName := some ("snstesting_" ++ rndString rand 20) } w1.remote
        = ((some { QueueUrl := some url }, none), s2) ∧
      sqs.GetQueueAttributes { QueueUrl := some url, AttributeNames := ["QueueArn"] } s2
        = ((some attrs, none), s3) ∧
      sqs.SetQueueAttributes
          { QueueUrl := some url,
            Attributes := [("Policy", policyDocument topicArn (attrs.Attributes.get "QueueArn"))] } s3
        = ((setOut, none), s4) ∧
      sns.Subscribe
          { Protocol := some "sqs", TopicArn := some topicArn,
            Endpoint := some (attrs.Attributes.get "QueueArn") } s4
        = ((some { SubscriptionArn := some subArn }, none), s5) ∧
      sub = { SNS := SNS, SQS := SQS,
              Config := { TopicName := topicName, TopicARN := topicArn,
                          QueueName := "snstesting_" ++ rndString rand 20, QueueURL := url,
                          QueueARN := attrs.Attributes.get "QueueArn", SubscriptionARN := subArn } } ∧
      w2 = ⟨s5, w1.log ++
        [Event.CreateQueue { QueueName := some ("snstesting_" ++ rndString rand 20) }
            (some { QueueUrl := some url }, none),
         Event.GetQueueAttributes { QueueUrl := some url, AttributeNames := ["QueueArn"] }
            (some attrs, none),
         Event.SetQueueAttributes
            { QueueUrl := some url,
              Attributes := [("Policy", policyDocument topicArn (attrs.Attributes.get "QueueArn"))] }
            (setOut, none),
         Event.Subscribe
            { Protocol := some "sqs", TopicArn := some topicArn,
              Endpoint := some (attrs.Attributes.get "QueueArn") }
            (some { SubscriptionArn := some subArn }, none)]⟩ := by
  unfold NewSubscriber at h
  obtain ⟨⟨topicArn, ferr⟩, w1, hfind, h⟩ := Go.bind_returned h
  cases ferr with
  | some e => simp [Go.pure] at h
  | none =>
  simp only at h
  obtain ⟨⟨cout, cerr⟩, wc, hc, h⟩ := Go.bind_returned h
  obtain ⟨sqs, rfl, hcreate, rfl⟩ := Go.call_returned hc
  cases cerr with
  | some e => simp [Go.pure] at h
  | none =>
  cases cout with
  | none => simp [Go.panic] at h
  | some createQueueOutput =>
  simp only at h
  obtain ⟨⟨gout, gerr⟩, wg, hg, h⟩ := Go.bind_returned h
  obtain ⟨_, hsq, hget, rfl⟩ := Go.call_returned hg
  cases hsq
  cases gerr with
  | some e => exact absurd rfl (failWithCleanup_returned h).2
  | none =>
  cases gout with
  | none => simp [Go.panic] at h
  | some attrs =>
  simp only at h
  obtain ⟨⟨sout, serr⟩, ws, hs, h⟩ := Go.bind_returned h
  obtain ⟨_, hsq, hset, rfl⟩ := Go.call_returned hs
  cases hsq
  cases serr with
  | some e => exact absurd rfl (failWithCleanup_returned h).2
  | none =>
  simp only at h
  obtain ⟨⟨bout, berr⟩, wb, hb, h⟩ := Go.bind_returned h
  obtain ⟨sns, rfl, hsub, rfl⟩ := Go.call_returned hb
  cases berr with
  | some e => exact absurd rfl (failWithCleanup_returned h).2
  | none =>
  simp only at h
  obtain ⟨url, wd, hd, h⟩ := Go.bind_returned h
  obtain ⟨hurl, rfl⟩ := Go.deref_returned hd
  cases bout with
  | none => simp [Go.panic] at h
  | some subscribeOutput =>
  simp only at h
  obtain ⟨subArn, wd2, hd2, h⟩ := Go.bind_returned h
  obtain ⟨hsubArn, rfl⟩ := Go.deref_returned hd2
  simp only [Go.pure, Prod.mk.injEq, Outcome.returned.injEq, and_true] at h
  obtain ⟨hsubeq, hw⟩ := h
  obtain ⟨curl⟩ := createQueueOutput
  obtain ⟨sarn⟩ := subscribeOutput
  simp only at hurl hsubArn
  subst hurl hsubArn
  simp only [fmt.Sprintf_s, String.append_empty, QueueAttributeNameQueueArn,
    QueueAttributeNamePolicy] at hcreate hget hset hsub hsubeq hw
  exact ⟨sns, sqs, topicArn, url, subArn, w1, attrs, sout, _, _, _, _, rfl, rfl, hfind,
    Prod.ext hcreate rfl, Prod.ext hget rfl, Prod.ext hset rfl, Prod.ext hsub rfl, hsubeq.symm,
    by rw [← hw]; simp [policyDocument]⟩

/-- A run that returns a non-nil error returns the zero `Subscriber`. -/
theorem NewSubscriber_error_inv {σ : Type} {fuel : Nat} {rand : Nat → Nat}
    {SNS : Option (SNSAPI σ)} {SQS : Option (SQSAPI σ)} {topicName : String} {w w2 : World σ}
    {sub : Subscriber σ} {err : GoError}
    (h : NewSubscriber fuel rand SNS SQS topicName w = (.returned (sub, some err), w2)) :
    sub = {} := by
  unfold NewSubscriber at h
  obtain ⟨⟨topicArn, ferr⟩, w1, hfind, h⟩ := Go.bind_returned h
  cases ferr with
  | some e => simp only [Go.pure, Prod.mk.injEq, Outcome.returned.injEq] at h; exact h.1.1.symm
  | none =>
  simp only at h
  obtain ⟨⟨cout, cerr⟩, wc, hc, h⟩ := Go.bind_returned h
  cases cerr with
  | some e => simp only [Go.pure, Prod.mk.injEq, Outcome.returned.injEq] at h; exact h.1.1.symm
  | none =>
  cases cout with
  | none => simp [Go.panic] at h
  | some createQueueOutput =>
  simp only at h
  obtain ⟨⟨gout, gerr⟩, wg, hg, h⟩ := Go.bind_returned h
  cases gerr with
  | some e => exact (failWithCleanup_returned h).1
  | none =>
  cases gout with
  | none => simp [Go.panic] at h
  | some attrs =>
  simp only at h
  obtain ⟨⟨sout, serr⟩, ws, hs, h⟩ := Go.bind_returned h
  cases serr with
  | some e => exact (failWithCleanup_returned h).1
  | none =>
  simp only at h
  obtain ⟨⟨bout, berr⟩, wb, hb, h⟩ := Go.bind_returned h
  cases berr with
  | some e => exact (failWithCleanup_returned h).1
  | none =>
  simp only at h
  obtain ⟨url, wd, hd, h⟩ := Go.bind_returned h
  cases bout with
  | none => simp [Go.panic] at h
  | some subscribeOutput =>
  simp only at h
  obtain ⟨subArn, wd2, hd2, h⟩ := Go.bind_returned h
  simp [Go.pure] at h

theorem queueName_eq (rand : Nat → Nat) :
    fmt.Sprintf_s "snstesting_" (rndString rand 20) "" = "snstesting_" ++ rndString rand 20 := by
  simp [fmt.Sprintf_s]

/-- The run when topic resolution returns an error. -/
theorem NewSubscriber_of_resolve_error {σ : Type} {fuel : Nat} {rand : Nat → Nat}
    {SNS : Option (SNSAPI σ)} {SQS : Option (SQSAPI σ)} {topicName : String} {w w1 : World σ}
    {a : String} {e : GoError}
    (hfind : findTopicArn fuel SNS topicName w = (.returned (a, some e), w1)) :
    NewSubscriber fuel rand SNS SQS topicName w = (.returned ({}, some e), w1) := by
  simp [NewSubscriber, Go.bind, hfind, Go.pure]

/-- The run when `CreateQueue` returns an error. -/
theorem NewSubscriber_of_create_error {σ : Type} {fuel : Nat} {rand : Nat → Nat}
    {SNS : Option (SNSAPI σ)} {sqs : SQSAPI σ} {topicName : String} {w w1 : World σ}
    {topicArn : String} {o : Option CreateQueueOutput} {e : GoError} {s2 : σ}
    (hfind : findTopicArn fuel SNS topicName w = (.returned (topicArn, none), w1))
    (hcreate : sqs.CreateQueue { QueueName := some ("snstesting_" ++ rndString rand 20) } w1.remote
      = ((o, some e), s2)) :
    NewSubscriber fuel rand SNS (some sqs) topicName w
      = (.returned ({}, some e),
          ⟨s2, w1.log ++
            [Event.CreateQueue { QueueName := some ("snstesting_" ++ rndString rand 20) } (o, some e)]⟩) := by
  simp [NewSubscriber, Go.bind, hfind, Go.pure, Go.call, queueName_eq, hcreate]

/-- The run when `GetQueueAttributes` returns an error. -/
theorem NewSubscriber_of_get_error {σ : Type} {fuel : Nat} {rand : Nat → Nat}
    {SNS : Option (SNSAPI σ)} {sqs : SQSAPI σ} {topicName : String} {w w1 : World σ}
    {topicArn url : String} {o : Option GetQueueAttributesOutput} {e : GoError} {s2 s3 : σ}
    (hfind : findTopicArn fuel SNS topicName w = (.returned (topicArn, none), w1))
    (hcreate : sqs.CreateQueue { QueueName := some ("snstesting_" ++ rndString rand 20) } w1.remote
      = ((some { QueueUrl := some url }, none), s2))
    (hget : sqs.GetQueueAttributes { QueueUrl := some url, AttributeNames := ["QueueArn"] } s2
      = ((o, some e), s3)) :
    NewSubscriber fuel rand SNS (some sqs) topicName w
      = (.returned ({}, some (fmt.Errorf_v "get queue attributes failure: "
            (combineErr [some e, (sqs.DeleteQueue { QueueUrl := some url } s3).1.2]))),
          ⟨(sqs.DeleteQueue { QueueUrl := some url } s3).2, w1.log ++
            [Event.CreateQueue { QueueName := some ("snstesting_" ++ rndString rand 20) }
                (some { QueueUrl := some url }, none),
             Event.GetQueueAttributes { QueueUrl := some url, AttributeNames := ["QueueArn"] }
                (o, some e),
             Event.DeleteQueue { QueueUrl := some url }
                (sqs.DeleteQueue { QueueUrl := some url } s3).1]⟩) := by
  simp [NewSubscriber, Go.bind, hfind, Go.pure, Go.call, queueName_eq, hcreate,
    QueueAttributeNameQueueArn, hget, failWithCleanup, Go.deref, cleanupQueue]

/-- The run when `SetQueueAttributes` returns an error. -/
theorem NewSubscriber_of_set_error {σ : Type} {fuel : Nat} {rand : Nat → Nat}
    {SNS : Option (SNSAPI σ)} {sqs : SQSAPI σ} {topicName : String} {w w1 : World σ}
    {topicArn url : String} {attrs : GetQueueAttributesOutput}
    {o : Option SetQueueAttributesOutput} {e : GoError} {s2 s3 s4 : σ}
    (hfind : findTopicArn fuel SNS topicName w = (.returned (topicArn, none), w1))
    (hcreate : sqs.CreateQueue { QueueName := some ("snstesting_" ++ rndString rand 20) } w1.remote
      = ((some { QueueUrl := some url }, none), s2))
    (hget : sqs.GetQueueAttributes { QueueUrl := some url, AttributeNames := ["QueueArn"] } s2
      = ((some attrs, none), s3))
    (hset : sqs.SetQueueAttributes
        { QueueUrl := some url,
          Attributes := [("Policy", policyDocument topicArn (attrs.Attributes.get "QueueArn"))] } s3
      = ((o, some e), s4)) :
    NewSubscriber fuel rand SNS (some sqs) topicName w
      = (.returned ({}, some (fmt.Errorf_v "set queue attributes failure: "
            (combineErr [some e, (sqs.DeleteQueue { QueueUrl := some url } s4).1.2]))),
          ⟨(sqs.DeleteQueue { QueueUrl := some url } s4).2, w1.log ++
            [Event.CreateQueue { QueueName := some ("snstesting_" ++ rndString rand 20) }
                (some { QueueUrl := some url }, none),
             Event.GetQueueAttributes { QueueUrl := some url, AttributeNames := ["QueueArn"] }
                (some attrs, none),
             Event.SetQueueAttributes
                { QueueUrl := some url,
                  Attributes := [("Policy", policyDocument topicArn (attrs.Attributes.get "QueueArn"))] }
                (o, some e),
             Event.DeleteQueue { QueueUrl := some url }
                (sqs.DeleteQueue { QueueUrl := some url } s4).1]⟩) := by
  unfold policyDocument at hset
  simp [NewSubscriber, Go.bind, hfind, Go.pure, Go.call, queueName_eq, hcreate,
    QueueAttributeNameQueueArn, QueueAttributeNamePolicy, hget, hset, failWithCleanup, Go.deref,
    cleanupQueue, policyDocument]

/-- The run when `Subscribe` returns an error. -/
theorem NewSubscriber_of_subscribe_error {σ : Type} {fuel : Nat} {rand : Nat → Nat}
    {sns : SNSAPI σ} {sqs : SQSAPI σ} {topicName : String} {w w1 : World σ}
    {topicArn url : String} {attrs : GetQueueAttributesOutput}
    {setOut : Option SetQueueAttributesOutput} {o : Option SubscribeOutput} {e : GoError}
    {s2 s3 s4 s5 : σ}
    (hfind : findTopicArn fuel (some sns) topicName w = (.returned (topicArn, none), w1))
    (hcreate : sqs.CreateQueue { QueueName := some ("snstesting_" ++ rndString rand 20) } w1.remote
      = ((some { QueueUrl := some url }, none), s2))
    (hget : sqs.GetQueueAttributes { QueueUrl := some url, AttributeNames := ["QueueArn"] } s2
      = ((some attrs, none), s3))
    (hset : sqs.SetQueueAttributes
        { QueueUrl := some url,
          Attributes := [("Policy", policyDocument topicArn (attrs.Attributes.get "QueueArn"))] } s3
      = ((setOut, none), s4))
    (hsub : sns.Subscribe
        { Protocol := some "sqs", TopicArn := some topicArn,
          Endpoint := some (attrs.Attributes.get "QueueArn") } s4
      = ((o, some e), s5)) :
    NewSubscriber fuel rand (some sns) (some sqs) topicName w
      = (.returned ({}, some (fmt.Errorf_v "subscribe failure: "
            (combineErr [some e, (sqs.DeleteQueue { QueueUrl := some url } s5).1.2]))),
          ⟨(sqs.DeleteQueue { QueueUrl := some url } s5).2, w1.log ++
            [Event.CreateQueue { QueueName := some ("snstesting_" ++ rndString rand 20) }
                (some { QueueUrl := some url }, none),
             Event.GetQueueAttributes { QueueUrl := some url, AttributeNames := ["QueueArn"] }
                (some attrs, none),
             Event.SetQueueAttributes
                { QueueUrl := some url,
                  Attributes := [("Policy", policyDocument topicArn (attrs.Attributes.get "QueueArn"))] }
                (setOut, none),
             Event.Subscribe
                { Protocol := some "sqs", TopicArn := some topicArn,
                  Endpoint := some (attrs.Attributes.get "QueueArn") }
                (o, some e),
             Event.DeleteQueue { QueueUrl := some url }
                (sqs.DeleteQueue { QueueUrl := some url } s5).1]⟩) := by
  unfold policyDocument at hset
  simp [NewSubscriber, Go.bind, hfind, Go.pure, Go.call, queueName_eq, hcreate,
    QueueAttributeNameQueueArn, QueueAttributeNamePolicy, hget, hset, hsub, failWithCleanup,
    Go.deref, cleanupQueue, policyDocument]

/-! ## The claims on `NewSubscriber` -/

/-- C2: whenever `NewSubscriber` returns a non-nil error, whatever the topic name and the
behaviour of the services, the `Subscriber` it returns is the zero value: both clients are
nil and the six fields of the `Config` are empty. -/
theorem NewSubscriber_error_zero {σ : Type} (fuel : Nat) (rand : Nat → Nat)
    (SNS : Option (SNSAPI σ)) (SQS : Option (SQSAPI σ)) (topicName : String) (w w2 : World σ)
    (sub : Subscriber σ) (err : GoError)
    (h : NewSubscriber fuel rand SNS SQS topicName w = (.returned (sub, some err), w2)) :
    sub.SNS = none ∧ sub.SQS = none ∧
    sub.Config.TopicName = "" ∧ sub.Config.TopicARN = "" ∧ sub.Config.QueueName = "" ∧
    sub.Config.QueueURL = "" ∧ sub.Config.QueueARN = "" ∧ sub.Config.SubscriptionARN = "" := by
  rw [NewSubscriber_error_inv h]
  exact ⟨rfl, rfl, rfl, rfl, rfl, rfl, rfl, rfl⟩

/-- C2, on the test `error subscribing to sns`: the run returns an error after the queue
was created and rolled back, and the `Subscriber` is the zero value. -/
theorem NewSubscriber_error_zero_witness :
    (∃ sub err w2,
      NewSubscriber 1 (fun _ => 0) (some (testSNS (none, some (.remote 1 "foo"))))
        (some (testSQS testAttrs (some {}, none) (none, none))) "sometopic" World.start
        = (.returned (sub, some err), w2) ∧
      sub.SNS = none ∧ sub.SQS = none ∧
      sub.Config.TopicName = "" ∧ sub.Config.TopicARN = "" ∧ sub.Config.QueueName = "" ∧
      sub.Config.QueueURL = "" ∧ sub.Config.QueueARN = "" ∧ sub.Config.SubscriptionARN = "") :=
  ⟨_, _, _, rfl,
    NewSubscriber_error_zero 1 (fun _ => 0) (some (testSNS (none, some (.remote 1 "foo"))))
      (some (testSQS testAttrs (some {}, none) (none, none))) "sometopic" World.start _ _ _ rfl⟩

/-- C3: in `NewSubscriber`, an error of topic resolution leaves the world as topic
resolution left it (no call follows), an error of `CreateQueue` leaves its call as the
last one, and an error of `GetQueueAttributes`, `SetQueueAttributes` or `Subscribe` is
followed in the log by exactly one call, the `DeleteQueue` on the URL that `CreateQueue`
returned. -/
theorem NewSubscriber_rollback_calls {σ : Type} (fuel : Nat) (rand : Nat → Nat)
    (SNS : Option (SNSAPI σ)) (sqs : SQSAPI σ) (topicName : String) (w : World σ) :
    (∀ SQS a e w1, findTopicArn fuel SNS topicName w = (.returned (a, some e), w1) →
      (NewSubscriber fuel rand SNS SQS topicName w).2 = w1) ∧
    (∀ topicArn w1, findTopicArn fuel SNS topicName w = (.returned (topicArn, none), w1) →
      (∀ o e s2,
        sqs.CreateQueue { QueueName := some ("snstesting_" ++ rndString rand 20) } w1.remote
          = ((o, some e), s2) →
        (NewSubscriber fuel rand SNS (some sqs) topicName w).2.log = w1.log ++
          [Event.CreateQueue { QueueName := some ("snstesting_" ++ rndString rand 20) } (o, some e)]) ∧
      (∀ url s2,
        sqs.CreateQueue { QueueName := some ("snstesting_" ++ rndString rand 20) } w1.remote
          = ((some { QueueUrl := some url }, none), s2) →
        (∀ o e s3,
          sqs.GetQueueAttributes { QueueUrl := some url, AttributeNames := ["QueueArn"] } s2
            = ((o, some e), s3) →
          ∃ before, (NewSubscriber fuel rand SNS (some sqs) topicName w).2.log = before ++
            [Event.GetQueueAttributes { QueueUrl := some url, AttributeNames := ["QueueArn"] }
                (o, some e),
             Event.DeleteQueue { QueueUrl := some url }
                (sqs.DeleteQueue { QueueUrl := some url } s3).1]) ∧
        (∀ attrs s3,
          sqs.GetQueueAttributes { QueueUrl := some url, AttributeNames := ["QueueArn"] } s2
            = ((some attrs, none), s3) →
          (∀ o e s4,
            sqs.SetQueueAttributes
                { QueueUrl := some url,
                  Attributes := [("Policy", policyDocument topicArn (attrs.Attributes.get "QueueArn"))] }
                s3 = ((o, some e), s4) →
            ∃ before, (NewSubscriber fuel rand SNS (some sqs) topicName w).2.log = before ++
              [Event.SetQueueAttributes
                  { QueueUrl := some url,
                    Attributes := [("Policy", policyDocument topicArn (attrs.Attributes.get "QueueArn"))] }
                  (o, some e),
               Event.DeleteQueue { QueueUrl := some url }
                  (sqs.DeleteQueue { QueueUrl := some url } s4).1]) ∧
          (∀ setOut s4,
            sqs.SetQueueAttributes
                { QueueUrl := some url,
                  Attributes := [("Policy", policyDocument topicArn (attrs.Attributes.get "QueueArn"))] }
                s3 = ((setOut, none), s4) →
            ∀ sns o e s5, SNS = some sns →
              sns.Subscribe
                  { Protocol := some "sqs", TopicArn := some topicArn,
                    Endpoint := some (attrs.Attributes.get "QueueArn") } s4
                = ((o, some e), s5) →
              ∃ before, (NewSubscriber fuel rand SNS (some sqs) topicName w).2.log = before ++
                [Event.Subscribe
                    { Protocol := some "sqs", TopicArn := some topicArn,
                      Endpoint := some (attrs.Attributes.get "QueueArn") }
                    (o, some e),
                 Event.DeleteQueue { QueueUrl := some url }
                    (sqs.DeleteQueue { QueueUrl := some url } s5).1])))) := by
  refine ⟨fun SQS a e w1 hfind => by rw [NewSubscriber_of_resolve_error hfind], ?_⟩
  intro topicArn w1 hfind
  refine ⟨fun o e s2 hcreate => by rw [NewSubscriber_of_create_error hfind hcreate], ?_⟩
  intro url s2 hcreate
  refine ⟨fun o e s3 hget => ?_, ?_⟩
  · rw [NewSubscriber_of_get_error hfind hcreate hget]
    exact ⟨_, (List.append_assoc _ [_] _).symm⟩
  intro attrs s3 hget
  refine ⟨fun o e s4 hset => ?_, ?_⟩
  · rw [NewSubscriber_of_set_error hfind hcreate hget hset]
    exact ⟨_, (List.append_assoc _ [_, _] _).symm⟩
  intro setOut s4 hset sns o e s5 hsns hsub
  subst hsns
  rw [NewSubscriber_of_subscribe_error hfind hcreate hget hset hsub]
  exact ⟨_, (List.append_assoc _ [_, _, _] _).symm⟩

/-- C3, on the test `error setting queue attributes`: the failed `SetQueueAttributes` is
followed by the `DeleteQueue` on `http://queue.url` and by nothing else. -/
theorem NewSubscriber_rollback_calls_witness :
    ∃ before,
      (NewSubscriber 1 (fun _ => 0) (some (testSNS (none, none)))
        (some (testSQS testAttrs (none, some (.remote 1 "foo")) (none, none))) "sometopic"
        World.start).2.log = before ++
        [Event.SetQueueAttributes
            { QueueUrl := some "http://queue.url",
              Attributes := [("Policy",
                policyDocument "arn:foo:bar:sometopic" "arn:foo:bar:testingqueue")] }
            (none, some (.remote 1 "foo")),
         Event.DeleteQueue { QueueUrl := some "http://queue.url" } (none, none)] :=
  (((NewSubscriber_rollback_calls 1 (fun _ => 0) (some (testSNS (none, none)))
      (testSQS testAttrs (none, some (.remote 1 "foo")) (none, none)) "sometopic"
      World.start).2 "arn:foo:bar:sometopic" _ rfl).2 "http://queue.url" 1 rfl).2
    { Attributes := [("QueueArn", "arn:foo:bar:testingqueue")] } 1 rfl |>.1
    none (.remote 1 "foo") 1 rfl

/-! ## Error texts -/

/-- A format without percent sign is written as it is. -/
theorem fmt.doPrintf_of_no_percent (fuel : Nat) (format : List Char)
    (h : ∀ c ∈ format, c ≠ '%') : fmt.doPrintf (fuel + 1) format = format := by
  have h1 : format.takeWhile (fun c => c != '%') = format := by
    rw [List.takeWhile_eq_self_iff]
    intro c hc
    simpa using h c hc
  have h2 : format.dropWhile (fun c => c != '%') = [] := by
    rw [List.dropWhile_eq_nil_iff]
    intro c hc
    simpa using h c hc
  simp [fmt.doPrintf, h1, h2]

/-- `fmt.Sprintf0` is the identity on a text without percent sign. -/
theorem fmt.Sprintf0_of_no_percent (format : String) (h : ∀ c ∈ format.data, c ≠ '%') :
    fmt.Sprintf0 format = format := by
  unfold fmt.Sprintf0
  rw [fmt.doPrintf_of_no_percent _ _ h]

/-- The error of `combineErr` on two non-nil errors: the formatted join of the two texts. -/
theorem combineErr_pair (a b : GoError) :
    combineErr [some a, some b]
      = some (.errorString (fmt.Sprintf0 (String.mk (a.Error.data ++ ',' :: b.Error.data)))) := by
  simp [combineErr, fmt.Errorf0, strings.Join, strings.joinChars]

/-- The error of `combineErr` on one non-nil error followed by a nil one: the formatted
text of the first. -/
theorem combineErr_single (a : GoError) :
    combineErr [some a, none] = some (.errorString (fmt.Sprintf0 a.Error)) := by
  simp [combineErr, fmt.Errorf0, strings.Join, strings.joinChars]

/-- For texts without percent sign `combineErr` joins the two texts by a comma. -/
theorem combineErr_pair_of_no_percent (a b : GoError)
    (ha : ∀ c ∈ a.Error.data, c ≠ '%') (hb : ∀ c ∈ b.Error.data, c ≠ '%') :
    combineErr [some a, some b] = some (.errorString (a.Error ++ "," ++ b.Error)) := by
  rw [combineErr_pair, fmt.Sprintf0_of_no_percent]
  · congr 2
    apply String.ext
    simp
  · intro c hc
    simp only [List.mem_append, List.mem_cons] at hc
    rcases hc with hc | rfl | hc
    · exact ha c hc
    · decide
    · exact hb c hc

/-- For a text without percent sign `combineErr` keeps the text of a single error. -/
theorem combineErr_single_of_no_percent (a : GoError) (ha : ∀ c ∈ a.Error.data, c ≠ '%') :
    combineErr [some a, none] = some (.errorString a.Error) := by
  rw [combineErr_single, fmt.Sprintf0_of_no_percent _ ha]

/-- The text of the error of a rollback return when neither the failure nor the rollback
error holds a percent sign: the failure text after `pre`, followed by a comma and the
rollback text when the rollback failed. -/
theorem rollback_text_of_no_percent (pre : String) (e : GoError) (d : Option GoError)
    (he : ∀ c ∈ e.Error.data, c ≠ '%') (hd : ∀ r, d = some r → ∀ c ∈ r.Error.data, c ≠ '%') :
    (fmt.Errorf_v pre (combineErr [some e, d])).Error =
      match d with
      | none => pre ++ e.Error
      | some r => pre ++ e.Error ++ "," ++ r.Error := by
  cases d with
  | none =>
    rw [combineErr_single_of_no_percent e he]
    simp [fmt.Errorf_v, fmt.verbV, fmt.Sprintf_s, GoError.Error]
  | some r =>
    rw [combineErr_pair_of_no_percent e r he (hd r rfl)]
    simp [fmt.Errorf_v, fmt.verbV, fmt.Sprintf_s, GoError.Error, String.append_assoc]

/-- C4, evaluated on the test `error getting queue attributes` with the error text `hi%d`
in place of `foo`: `GetQueueAttributes` fails with `hi%d` and the rollback succeeds; the
text of the returned error is `get queue attributes failure: hi%!d(MISSING)`, not
`get queue attributes failure: hi%d`. -/
theorem NewSubscriber_error_text_percent :
    Outcome.errorText
        (NewSubscriber 1 (fun _ => 0) (some (testSNS (none, none)))
          (some (testSQS (none, some (.remote 1 "hi%d")) (none, none) (none, none)))
          "sometopic" World.start).1
      = some "get queue attributes failure: hi%!d(MISSING)" ∧
    Outcome.errorText
        (NewSubscriber 1 (fun _ => 0) (some (testSNS (none, none)))
          (some (testSQS (none, some (.remote 1 "hi%d")) (none, none) (none, none)))
          "sometopic" World.start).1
      ≠ some ("get queue attributes failure: " ++ "hi%d") := by
  constructor <;> decide

/-- C5, evaluated on two errors with the texts `hi%d` and `bar`: the text of the error of
`combineErr`, and of `Cleanup` when `Unsubscribe` and `DeleteQueue` fail with them, is
`hi%!d(MISSING),bar`, not `hi%d,bar`. -/
theorem combineErr_percent :
    (combineErr [some (.remote 1 "hi%d"), some (.remote 2 "bar")]).map GoError.Error
      = some "hi%!d(MISSING),bar" ∧
    (combineErr [some (.remote 1 "hi%d"), some (.remote 2 "bar")]).map GoError.Error
      ≠ some (strings.Join ["hi%d", "bar"] ",") ∧
    (Subscriber.Cleanup
        { SNS := some (scriptedSNS [] (none, none) (none, some (.remote 1 "hi%d"))),
          SQS := some (scriptedSQS (none, none) (none, none) (none, none)
            (none, some (.remote 2 "bar")) (none, none)),
          Config := { QueueURL := "http://queue.url", SubscriptionARN := "arn:foo:bar:subscription" } }
        World.start).1
      = .returned (some (.errorString "hi%!d(MISSING),bar")) := by
  refine ⟨by decide, by decide, by decide⟩

/-- `combineErr` of two errors is nil exactly when both are nil. -/
theorem combineErr_eq_none_iff (a b : Option GoError) :
    combineErr [a, b] = none ↔ a = none ∧ b = none := by
  cases a <;> cases b <;> simp [combineErr]

/-! ## The claims on `Cleanup` and `Receive` -/

/-- C6, as amended: `Cleanup` of a `Subscriber` whose SNS and SQS clients are not nil issues
exactly two calls, first one `Unsubscribe` with `Config.SubscriptionARN`, then one
`DeleteQueue` with `Config.QueueURL`, whatever the first call replies; and it returns nil
exactly when both calls reply without error. -/
theorem Cleanup_calls {σ : Type} (s : Subscriber σ) (sns : SNSAPI σ) (sqs : SQSAPI σ)
    (w : World σ) (ru : Reply UnsubscribeOutput) (rd : Reply DeleteQueueOutput) (s1 s2 : σ)
    (hsns : s.SNS = some sns) (hsqs : s.SQS = some sqs)
    (hu : sns.Unsubscribe { SubscriptionArn := some s.Config.SubscriptionARN } w.remote = (ru, s1))
    (hd : sqs.DeleteQueue { QueueUrl := some s.Config.QueueURL } s1 = (rd, s2)) :
    ∃ err,
      s.Cleanup w = (.returned err,
        ⟨s2, w.log ++
          [Event.Unsubscribe { SubscriptionArn := some s.Config.SubscriptionARN } ru,
           Event.DeleteQueue { QueueUrl := some s.Config.QueueURL } rd]⟩) ∧
      (err = none ↔ ru.2 = none ∧ rd.2 = none) := by
  refine ⟨combineErr [ru.2, rd.2], ?_, combineErr_eq_none_iff _ _⟩
  simp [Subscriber.Cleanup, unsubscribe, cleanupQueue, Go.bind, Go.call, Go.pure, hsns, hsqs,
    hu, hd]

/-- C6, on the test `errors` of `Cleanup`, where both calls fail: both calls are issued,
in this order, and the error is not nil. -/
theorem Cleanup_calls_witness :
    ∃ err,
      Subscriber.Cleanup
          { SNS := some (scriptedSNS [] (none, none) (none, some (.remote 1 "foo"))),
            SQS := some (scriptedSQS (none, none) (none, none) (none, none)
              (none, some (.remote 2 "bar")) (none, none)),
            Config := { QueueURL := "http://queue.url",
                        SubscriptionARN := "arn:foo:bar:subscription" } }
          World.start
        = (.returned err,
          ⟨0, [] ++
            [Event.Unsubscribe { SubscriptionArn := some "arn:foo:bar:subscription" }
                (none, some (.remote 1 "foo")),
             Event.DeleteQueue { QueueUrl := some "http://queue.url" }
                (none, some (.remote 2 "bar"))]⟩) ∧
      (err = none ↔
        some (GoError.remote 1 "foo") = none ∧ some (GoError.remote 2 "bar") = none) :=
  Cleanup_calls
    { SNS := some (scriptedSNS [] (none, none) (none, some (.remote 1 "foo"))),
      SQS := some (scriptedSQS (none, none) (none, none) (none, none)
        (none, some (.remote 2 "bar")) (none, none)),
      Config := { QueueURL := "http://queue.url", SubscriptionARN := "arn:foo:bar:subscription" } }
    _ _ World.start (none, some (.remote 1 "foo")) (none, some (.remote 2 "bar")) 0 0
    rfl rfl rfl rfl

/-- C6, on `Subscriber` values with a nil client.  With an SNS client and a nil SQS client
`Cleanup` issues the `Unsubscribe` call and then panics, so no `DeleteQueue` call follows;
with a nil SNS client and an SQS client it panics before any call. -/
theorem Cleanup_calls_nil_client :
    (Subscriber.Cleanup
        { SNS := some (scriptedSNS [] (none, none) (some {}, none)),
          SQS := none,
          Config := { QueueURL := "http://queue.url",
                      SubscriptionARN := "arn:foo:bar:subscription" } }
        World.start).1 = .panicked ∧
    (Subscriber.Cleanup
        { SNS := some (scriptedSNS [] (none, none) (some {}, none)),
          SQS := none,
          Config := { QueueURL := "http://queue.url",
                      SubscriptionARN := "arn:foo:bar:subscription" } }
        World.start).2.log
      = [Event.Unsubscribe { SubscriptionArn := some "arn:foo:bar:subscription" }
          (some {}, none)] ∧
    (Subscriber.Cleanup
        { SNS := none,
          SQS := some completeSQS,
          Config := { QueueURL := "http://queue.url",
                      SubscriptionARN := "arn:foo:bar:subscription" } }
        World.start).1 = .panicked ∧
    (Subscriber.Cleanup
        { SNS := none,
          SQS := some completeSQS,
          Config := { QueueURL := "http://queue.url",
                      SubscriptionARN := "arn:foo:bar:subscription" } }
        World.start).2.log = [] := by
  refine ⟨rfl, rfl, rfl, rfl⟩

/-- C7: when the poll of `Receive` replies with an output and no error, `Receive` returns
with a nil error; the result is the body of the first message of the reply, unchanged,
when the reply holds a message, and the empty string when it holds none. -/
theorem Receive_success {σ : Type} (s : Subscriber σ) (sqs : SQSAPI σ) (w : World σ)
    (out : ReceiveMessageOutput) (s1 : σ)
    (hsqs : s.SQS = some sqs)
    (hpoll : sqs.ReceiveMessage
        { QueueUrl := some s.Config.QueueURL, MaxNumberOfMessages := 1,
          VisibilityTimeout := 3600, WaitTimeSeconds := 3 } w.remote
      = ((some out, none), s1)) :
    (∀ first rest body, out.Messages = first :: rest → first.Body = some body →
      (s.Receive w).1 = .returned (body, none)) ∧
    (out.Messages = [] → (s.Receive w).1 = .returned ("", none)) := by
  constructor
  · intro first rest body hm hb
    simp [Subscriber.Receive, Go.bind, Go.call, Go.pure, Go.deref, hsqs, hpoll, hm, hb]
  · intro hm
    simp [Subscriber.Receive, Go.bind, Go.call, Go.pure, hsqs, hpoll, hm]

/-- C7, on the test `success` of `Receive`: the body `this is the message!` is returned. -/
theorem Receive_success_witness :
    (Subscriber.Receive
        { SNS := none,
          SQS := some (scriptedSQS (none, none) (none, none) (none, none) (none, none)
            (some { Messages := [{ Body := some "this is the message!" }] }, none)),
          Config := { QueueURL := "http://queue.url" } }
        World.start).1 = .returned ("this is the message!", none) :=
  (Receive_success
    { SNS := none,
      SQS := some (scriptedSQS (none, none) (none, none) (none, none) (none, none)
        (some { Messages := [{ Body := some "this is the message!" }] }, none)),
      Config := { QueueURL := "http://queue.url" } }
    _ World.start { Messages := [{ Body := some "this is the message!" }] } 0 rfl rfl).1
    { Body := some "this is the message!" } [] "this is the message!" rfl rfl

/-- C8: when the poll of `Receive` replies with an error, `Receive` returns the empty
string and that same error value, whatever output comes with the error. -/
theorem Receive_error {σ : Type} (s : Subscriber σ) (sqs : SQSAPI σ) (w : World σ)
    (o : Option ReceiveMessageOutput) (e : GoError) (s1 : σ)
    (hsqs : s.SQS = some sqs)
    (hpoll : sqs.ReceiveMessage
        { QueueUrl := some s.Config.QueueURL, MaxNumberOfMessages := 1,
          VisibilityTimeout := 3600, WaitTimeSeconds := 3 } w.remote
      = ((o, some e), s1)) :
    (s.Receive w).1 = .returned ("", some e) := by
  simp [Subscriber.Receive, Go.bind, Go.call, Go.pure, hsqs, hpoll]

/-- C8, on the test `error` of `Receive`, with a message in the output that comes with
the error. -/
theorem Receive_error_witness :
    (Subscriber.Receive
        { SNS := none,
          SQS := some (scriptedSQS (none, none) (none, none) (none, none) (none, none)
            (some { Messages := [{ Body := some "ignored" }] }, some (.remote 7 "poll failed"))),
          Config := { QueueURL := "http://queue.url" } }
        World.start).1 = .returned ("", some (.remote 7 "poll failed")) :=
  Receive_error
    { SNS := none,
      SQS := some (scriptedSQS (none, none) (none, none) (none, none) (none, none)
        (some { Messages := [{ Body := some "ignored" }] }, some (.remote 7 "poll failed"))),
      Config := { QueueURL := "http://queue.url" } }
    _ World.start (some { Messages := [{ Body := some "ignored" }] }) (.remote 7 "poll failed") 0
    rfl rfl

/-! ## The successful run of `NewSubscriber` -/

/-- C9: after a run of `NewSubscriber` that returns a nil error, the `Subscriber` holds the
clients that were passed in, `TopicName` is the given name, `TopicARN` is the ARN that
topic resolution returned, and the log ends with the four calls of the setup, in which
`QueueName` is the name sent to `CreateQueue`, `QueueURL` the URL it returned, `QueueARN`
the value of the attribute `QueueArn` that `GetQueueAttributes` returned, and
`SubscriptionARN` the ARN that `Subscribe` returned. -/
theorem NewSubscriber_success_config {σ : Type} (fuel : Nat) (rand : Nat → Nat)
    (SNS : Option (SNSAPI σ)) (SQS : Option (SQSAPI σ)) (topicName : String) (w w2 : World σ)
    (sub : Subscriber σ)
    (h : NewSubscriber fuel rand SNS SQS topicName w = (.returned (sub, none), w2)) :
    sub.SNS = SNS ∧ sub.SQS = SQS ∧ sub.SNS ≠ none ∧ sub.SQS ≠ none ∧
    sub.Config.TopicName = topicName ∧
    (∃ w1, findTopicArn fuel SNS topicName w = (.returned (sub.Config.TopicARN, none), w1)) ∧
    (∃ before getInput attrs setEvent subscribeInput,
      w2.log = before ++
        [Event.CreateQueue { QueueName := some sub.Config.QueueName }
            (some { QueueUrl := some sub.Config.QueueURL }, none),
         Event.GetQueueAttributes getInput (some attrs, none),
         setEvent,
         Event.Subscribe subscribeInput
            (some { SubscriptionArn := some sub.Config.SubscriptionARN }, none)] ∧
      sub.Config.QueueARN = attrs.Attributes.get "QueueArn") := by
  obtain ⟨sns, sqs, topicArn, url, subArn, w1, attrs, setOut, s2, s3, s4, s5, hsns, hsqs, hfind,
    -, -, -, -, hsub, hw⟩ := NewSubscriber_success_inv h
  subst hsub hw hsns hsqs
  exact ⟨rfl, rfl, by simp, by simp, rfl, ⟨w1, hfind⟩, w1.log, _, attrs, _, _, rfl, rfl⟩

/-- C10: in a run of `NewSubscriber` that returns a nil error, the calls issued after topic
resolution are exactly four, in this order: `CreateQueue`; `GetQueueAttributes` on the URL
the queue got, asking for `QueueArn` only; `SetQueueAttributes` on the same URL, setting
`Policy` only; `Subscribe` with the protocol `sqs`, the resolved topic ARN and, as
endpoint, the queue ARN.  No `DeleteQueue` and no `Unsubscribe` is among them. -/
theorem NewSubscriber_success_calls {σ : Type} (fuel : Nat) (rand : Nat → Nat)
    (SNS : Option (SNSAPI σ)) (SQS : Option (SQSAPI σ)) (topicName : String) (w w2 : World σ)
    (sub : Subscriber σ)
    (h : NewSubscriber fuel rand SNS SQS topicName w = (.returned (sub, none), w2)) :
    ∃ (topicArn url policy : String) (w1 : World σ) (createInput : CreateQueueInput)
      (attrs : GetQueueAttributesOutput) (setReply : Reply SetQueueAttributesOutput)
      (subscribeReply : Reply SubscribeOutput),
      findTopicArn fuel SNS topicName w = (.returned (topicArn, none), w1) ∧
      w2.log = w1.log ++
        [Event.CreateQueue createInput (some { QueueUrl := some url }, none),
         Event.GetQueueAttributes { QueueUrl := some url, AttributeNames := ["QueueArn"] }
            (some attrs, none),
         Event.SetQueueAttributes { QueueUrl := some url, Attributes := [("Policy", policy)] }
            setReply,
         Event.Subscribe
            { Protocol := some "sqs", TopicArn := some topicArn,
              Endpoint := some (attrs.Attributes.get "QueueArn") }
            subscribeReply] := by
  obtain ⟨sns, sqs, topicArn, url, subArn, w1, attrs, setOut, s2, s3, s4, s5, hsns, hsqs, hfind,
    -, -, -, -, hsub, hw⟩ := NewSubscriber_success_inv h
  subst hw
  exact ⟨topicArn, url, _, w1, _, attrs, _, _, hfind, rfl⟩

/-- C9, on the test `success`: the run returns a nil error and the `Config` holds the
values of the test. -/
theorem NewSubscriber_success_config_witness :
    ∃ sub w2,
      NewSubscriber 1 (fun _ => 0)
          (some (testSNS (some { SubscriptionArn := some "arn:foo:bar:subscription" }, none)))
          (some (testSQS testAttrs (some {}, none) (none, none))) "sometopic" World.start
        = (.returned (sub, none), w2) ∧
      sub.Config =
        { TopicName := "sometopic", TopicARN := "arn:foo:bar:sometopic",
          QueueName := "snstesting_aaaaaaaaaaaaaaaaaaaa", QueueURL := "http://queue.url",
          QueueARN := "arn:foo:bar:testingqueue", SubscriptionARN := "arn:foo:bar:subscription" } ∧
      sub.Config.TopicName = "sometopic" :=
  ⟨_, _, rfl, by decide,
    (NewSubscriber_success_config 1 (fun _ => 0)
      (some (testSNS (some { SubscriptionArn := some "arn:foo:bar:subscription" }, none)))
      (some (testSQS testAttrs (some {}, none) (none, none))) "sometopic" World.start _ _
      rfl).2.2.2.2.1⟩

/-- C10, on the test `success`: the four calls of the setup follow topic resolution. -/
theorem NewSubscriber_success_calls_witness :
    ∃ (topicArn url policy : String) (w1 : World Nat) (createInput : CreateQueueInput)
      (attrs : GetQueueAttributesOutput) (setReply : Reply SetQueueAttributesOutput)
      (subscribeReply : Reply SubscribeOutput),
      findTopicArn 1
          (some (testSNS (some { SubscriptionArn := some "arn:foo:bar:subscription" }, none)))
          "sometopic" World.start = (.returned (topicArn, none), w1) ∧
      (NewSubscriber 1 (fun _ => 0)
          (some (testSNS (some { SubscriptionArn := some "arn:foo:bar:subscription" }, none)))
          (some (testSQS testAttrs (some {}, none) (none, none))) "sometopic" World.start).2.log
        = w1.log ++
        [Event.CreateQueue createInput (some { QueueUrl := some url }, none),
         Event.GetQueueAttributes { QueueUrl := some url, AttributeNames := ["QueueArn"] }
            (some attrs, none),
         Event.SetQueueAttributes { QueueUrl := some url, Attributes := [("Policy", policy)] }
            setReply,
         Event.Subscribe
            { Protocol := some "sqs", TopicArn := some topicArn,
              Endpoint := some (attrs.Attributes.get "QueueArn") }
            subscribeReply] :=
  NewSubscriber_success_calls 1 (fun _ => 0)
    (some (testSNS (some { SubscriptionArn := some "arn:foo:bar:subscription" }, none)))
    (some (testSQS testAttrs (some {}, none) (none, none))) "sometopic" World.start _ _ rfl

/-! ## The log only grows -/

theorem Go.Extends.pure {σ α : Type} (a : α) : Go.Extends (Go.pure a : Go σ α) :=
  fun w => List.prefix_refl w.log

theorem Go.Extends.panic {σ α : Type} : Go.Extends (Go.panic : Go σ α) :=
  fun w => List.prefix_refl w.log

theorem Go.Extends.deref {σ : Type} (p : Option String) : Go.Extends (Go.deref p : Go σ String) := by
  cases p
  · exact Go.Extends.panic
  · exact Go.Extends.pure _

theorem Go.Extends.call {σ κ α : Type} (cli : Option κ) (op : κ → σ → Reply α × σ)
    (ev : Reply α → Event) : Go.Extends (Go.call cli op ev) := by
  intro w
  cases cli with
  | none => exact List.prefix_refl w.log
  | some c => exact List.prefix_append _ _

theorem Go.Extends.bind {σ α β : Type} {m : Go σ α} {f : α → Go σ β}
    (hm : Go.Extends m) (hf : ∀ a, Go.Extends (f a)) : Go.Extends (Go.bind m f) := by
  intro w
  have h1 := hm w
  unfold Go.bind
  rcases hmw : m w with ⟨o, w1⟩
  rw [hmw] at h1
  cases o with
  | returned a => exact h1.trans (hf a w1)
  | panicked => exact h1
  | outOfFuel => exact h1

theorem cleanupQueue_extends {σ : Type} (SQS : Option (SQSAPI σ)) (queueURL : String) :
    Go.Extends (cleanupQueue SQS queueURL) :=
  Go.Extends.bind (Go.Extends.call _ _ _) (fun _ => Go.Extends.pure _)

theorem failWithCleanup_extends {σ : Type} (SQS : Option (SQSAPI σ)) (pre : String)
    (err : GoError) (QueueUrl : Option String) :
    Go.Extends (failWithCleanup SQS pre err QueueUrl) :=
  Go.Extends.bind (Go.Extends.deref _) (fun _ =>
    Go.Extends.bind (cleanupQueue_extends _ _) (fun _ => Go.Extends.pure _))

/-- After a successful topic resolution with the SQS client at hand, the call that follows
is `CreateQueue` with the generated name, and whatever happens next only adds to the log. -/
theorem NewSubscriber_createQueue_logged {σ : Type} {fuel : Nat} {rand : Nat → Nat}
    {SNS : Option (SNSAPI σ)} {sqs : SQSAPI σ} {topicName : String} {w w1 : World σ}
    {topicArn : String}
    (hfind : findTopicArn fuel SNS topicName w = (.returned (topicArn, none), w1)) :
    w1.log ++
      [Event.CreateQueue { QueueName := some ("snstesting_" ++ rndString rand 20) }
        (sqs.CreateQueue { QueueName := some ("snstesting_" ++ rndString rand 20) } w1.remote).1]
      <+: (NewSubscriber fuel rand SNS (some sqs) topicName w).2.log := by
  unfold NewSubscriber
  simp only [Go.bind, hfind, Go.call, queueName_eq]
  refine (?_ : Go.Extends _) ⟨_, _⟩
  repeat' first
    | exact Go.Extends.pure _
    | exact Go.Extends.panic
    | exact Go.Extends.deref _
    | exact Go.Extends.call _ _ _
    | exact failWithCleanup_extends _ _ _ _
    | (refine Go.Extends.bind ?_ (fun _ => ?_))
    | split

/-! ## The generated queue name -/

theorem getD_eq_or_mem {α : Type} (l : List α) (k : Nat) (d : α) :
    l.getD k d = d ∨ l.getD k d ∈ l := by
  induction l generalizing k with
  | nil => left; rfl
  | cons a as ih =>
    cases k with
    | zero => right; simp
    | succ k =>
      rcases ih k with h | h
      · left; simpa using h
      · right; simp only [List.getD_cons_succ]; exact List.mem_cons_of_mem _ h

theorem rndString_length (rand : Nat → Nat) (n : Nat) : (rndString rand n).length = n := by
  simp [rndString, String.length]

theorem rndString_chars (rand : Nat → Nat) (n : Nat) :
    ∀ c ∈ (rndString rand n).data,
      c.isLower = true ∨ c.isUpper = true ∨ c.isDigit = true := by
  intro c hc
  simp only [rndString, List.mem_map] at hc
  obtain ⟨i, -, rfl⟩ := hc
  have hall : ∀ c ∈ 'a' :: "abcdefghijklmnopqrstuvwxyzABCDEFGHIJKLMNOPQRSTUVWXYZ1234567890".data,
      c.isLower = true ∨ c.isUpper = true ∨ c.isDigit = true := by decide
  rcases getD_eq_or_mem "abcdefghijklmnopqrstuvwxyzABCDEFGHIJKLMNOPQRSTUVWXYZ1234567890".data
    (rand i % "abcdefghijklmnopqrstuvwxyzABCDEFGHIJKLMNOPQRSTUVWXYZ1234567890".data.length) 'a'
    with h | h
  · rw [h]; decide
  · exact hall _ (List.mem_cons_of_mem _ h)

/-- C12: `rndString n` is made of exactly `n` characters, each a lower-case letter, an
upper-case letter or a digit, whatever the random source yields; and the name that
`NewSubscriber` sends to `CreateQueue`, the call that follows a successful topic resolution,
is `snstesting_` followed by 20 such characters, 31 characters in all. -/
theorem queueName_shape {σ : Type} (fuel : Nat) (rand : Nat → Nat) (SNS : Option (SNSAPI σ))
    (sqs : SQSAPI σ) (topicName : String) (w : World σ) :
    (∀ n, (rndString rand n).length = n ∧
      ∀ c ∈ (rndString rand n).data, c.isLower = true ∨ c.isUpper = true ∨ c.isDigit = true) ∧
    (∀ topicArn w1, findTopicArn fuel SNS topicName w = (.returned (topicArn, none), w1) →
      ∃ suffix reply after,
        (NewSubscriber fuel rand SNS (some sqs) topicName w).2.log
          = w1.log ++ [Event.CreateQueue { QueueName := some ("snstesting_" ++ suffix) } reply]
              ++ after ∧
        suffix.length = 20 ∧
        (∀ c ∈ suffix.data, c.isLower = true ∨ c.isUpper = true ∨ c.isDigit = true) ∧
        ("snstesting_" ++ suffix).length = 31) := by
  refine ⟨fun n => ⟨rndString_length rand n, rndString_chars rand n⟩, ?_⟩
  intro topicArn w1 hfind
  obtain ⟨after, hafter⟩ := @NewSubscriber_createQueue_logged σ fuel rand SNS sqs topicName w w1 topicArn hfind
  refine ⟨rndString rand 20, _, after, hafter.symm, rndString_length rand 20,
    rndString_chars rand 20, ?_⟩
  rw [String.length_append, rndString_length]
  decide

/-- C12, on the test `success` with a random source that always yields 0: the name sent is
`snstesting_aaaaaaaaaaaaaaaaaaaa`. -/
theorem queueName_shape_witness :
    ∃ suffix reply after,
      (NewSubscriber 1 (fun _ => 0)
          (some (testSNS (some { SubscriptionArn := some "arn:foo:bar:subscription" }, none)))
          (some (testSQS testAttrs (some {}, none) (none, none))) "sometopic" World.start).2.log
        = (World.mk 1
            [Event.ListTopics {}
              (some { Topics := [{ TopicArn := some "arn:foo:bar:sometopic" }] }, none)]).log ++
          [Event.CreateQueue { QueueName := some ("snstesting_" ++ suffix) } reply] ++ after ∧
      suffix.length = 20 ∧
      (∀ c ∈ suffix.data, c.isLower = true ∨ c.isUpper = true ∨ c.isDigit = true) ∧
      ("snstesting_" ++ suffix).length = 31 :=
  (queueName_shape 1 (fun _ => 0)
    (some (testSNS (some { SubscriptionArn := some "arn:foo:bar:subscription" }, none)))
    (testSQS testAttrs (some {}, none) (none, none)) "sometopic" World.start).2
    "arn:foo:bar:sometopic" _ rfl

/-- C14: `Receive` of a `Subscriber` with an SQS client adds exactly one call to the log,
whatever the call replies and however `Receive` ends: the `ReceiveMessage` with the
`QueueUrl` of the `Config`, `MaxNumberOfMessages` 1, `VisibilityTimeout` 3600 and
`WaitTimeSeconds` 3. -/
theorem Receive_calls {σ : Type} (s : Subscriber σ) (sqs : SQSAPI σ) (w : World σ)
    (hsqs : s.SQS = some sqs) :
    (s.Receive w).2.log = w.log ++
      [Event.ReceiveMessage
        { QueueUrl := some s.Config.QueueURL, MaxNumberOfMessages := 1,
          VisibilityTimeout := 3600, WaitTimeSeconds := 3 }
        (sqs.ReceiveMessage
          { QueueUrl := some s.Config.QueueURL, MaxNumberOfMessages := 1,
            VisibilityTimeout := 3600, WaitTimeSeconds := 3 } w.remote).1] := by
  unfold Subscriber.Receive
  simp only [Go.bind, Go.call, hsqs]
  rcases sqs.ReceiveMessage
    { QueueUrl := some s.Config.QueueURL, MaxNumberOfMessages := 1,
      VisibilityTimeout := 3600, WaitTimeSeconds := 3 } w.remote with ⟨⟨o, e⟩, s1⟩
  cases e with
  | some err => rfl
  | none =>
    cases o with
    | none => rfl
    | some out =>
      obtain ⟨msgs⟩ := out
      cases msgs with
      | nil => rfl
      | cons m rest =>
        obtain ⟨b⟩ := m
        cases b <;> rfl

/-- C14, on the test `success` of `Receive`. -/
theorem Receive_calls_witness :
    (Subscriber.Receive
        { SNS := none,
          SQS := some (scriptedSQS (none, none) (none, none) (none, none) (none, none)
            (some { Messages := [{ Body := some "this is the message!" }] }, none)),
          Config := { QueueURL := "http://queue.url" } }
        World.start).2.log =
      [] ++ [Event.ReceiveMessage
        { QueueUrl := some "http://queue.url", MaxNumberOfMessages := 1,
          VisibilityTimeout := 3600, WaitTimeSeconds := 3 }
        (some { Messages := [{ Body := some "this is the message!" }] }, none)] :=
  Receive_calls
    { SNS := none,
      SQS := some (scriptedSQS (none, none) (none, none) (none, none) (none, none)
        (some { Messages := [{ Body := some "this is the message!" }] }, none)),
      Config := { QueueURL := "http://queue.url" } }
    _ World.start rfl

/-! ## The policy document -/

set_option maxRecDepth 100000 in
theorem policyTemplate_parts :
    policyTemplate = policyHead ++ "<<QUEUE_ARN>>" ++ policyMiddle ++ "<<TOPIC_ARN>>" ++ policyTail := by
  decide

theorem not_isPrefixOf_of_clash (old s u : List Char) (h : clash old s = true) :
    old.isPrefixOf (s ++ u) = false := by
  induction old generalizing s with
  | nil => simp [clash] at h
  | cons o os ih =>
    cases s with
    | nil => simp [clash] at h
    | cons c cs =>
      simp only [clash, Bool.or_eq_true, bne_iff_ne, ne_eq] at h
      simp only [List.cons_append, List.isPrefixOf, Bool.and_eq_false_imp, beq_iff_eq]
      intro hoc
      rcases h with h | h
      · exact absurd hoc h
      · exact ih cs h

theorem replaceScan_literal (old new a u : List Char) (h : suffixesClash old a = true) :
    strings.replaceScan old new 0 (a ++ u) = a ++ strings.replaceScan old new 0 u := by
  induction a with
  | nil => rfl
  | cons c cs ih =>
    simp only [suffixesClash, Bool.and_eq_true] at h
    have hp := not_isPrefixOf_of_clash old (c :: cs) u h.1
    simp only [List.cons_append] at hp ⊢
    simp [strings.replaceScan, hp, ih h.2]

theorem replaceScan_skip (old new x u : List Char) :
    strings.replaceScan old new x.length (x ++ u) = strings.replaceScan old new 0 u := by
  induction x with
  | nil => rfl
  | cons c cs ih => simpa [strings.replaceScan] using ih

theorem replaceScan_match (old new u : List Char) (h : old ≠ []) :
    strings.replaceScan old new 0 (old ++ u) = new ++ strings.replaceScan old new 0 u := by
  cases old with
  | nil => exact absurd rfl h
  | cons o os =>
    have hp : (o :: os).isPrefixOf (o :: (os ++ u)) = true := by
      rw [List.isPrefixOf_iff_prefix]
      exact List.prefix_append (o :: os) u
    show strings.replaceScan (o :: os) new 0 (o :: (os ++ u)) = _
    rw [strings.replaceScan, if_pos hp]
    simp only [List.length_cons, Nat.add_sub_cancel]
    rw [replaceScan_skip]

theorem replaceScan_free (old new t rest : List Char) (d : Char) (ht : ¬ old <:+: t)
    (hd : d ∉ old) :
    strings.replaceScan old new 0 (t ++ d :: rest)
      = t ++ strings.replaceScan old new 0 (d :: rest) := by
  induction t with
  | nil => rfl
  | cons c cs ih =>
    have hp : (old.isPrefixOf (c :: cs ++ d :: rest)) = false := by
      rw [← Bool.not_eq_true, List.isPrefixOf_iff_prefix]
      intro hpre
      rcases List.prefix_or_prefix_of_prefix hpre (List.prefix_append (c :: cs) (d :: rest))
        with h | h
      · exact ht h.isInfix
      · obtain ⟨r, hr⟩ := h
        cases r with
        | nil =>
          rw [List.append_nil] at hr
          exact ht (hr ▸ List.infix_refl _)
        | cons e r =>
          rw [← hr] at hpre
          have h2 : e :: r <+: d :: rest := (List.prefix_append_right_inj (c :: cs)).1 hpre
          have hde : e = d := (List.cons_prefix_cons.1 h2).1
          exact hd (by rw [← hr, ← hde]; simp)
    have hcs : ¬ old <:+: cs := fun h => ht (h.trans (List.infix_cons (List.infix_refl _)))
    simp only [List.cons_append] at hp ⊢
    simp [strings.replaceScan, hp, ih hcs]

set_option maxRecDepth 100000 in
/-- The policy document for a topic ARN that does not hold the placeholder of the queue
ARN: the template with each placeholder replaced by its value. -/
theorem policyDocument_eq (t q : String) (ht : ¬ "<<QUEUE_ARN>>".data <:+: t.data) :
    policyDocument t q = policyHead ++ q ++ policyMiddle ++ t ++ policyTail := by
  have h1 : strings.ReplaceAll policyTemplate "<<TOPIC_ARN>>" t
      = policyHead ++ "<<QUEUE_ARN>>" ++ policyMiddle ++ t ++ policyTail := by
    apply String.ext
    have hA : suffixesClash "<<TOPIC_ARN>>".data
        (policyHead ++ "<<QUEUE_ARN>>" ++ policyMiddle).data = true := by decide
    have hT : suffixesClash "<<TOPIC_ARN>>".data policyTail.data = true := by decide
    have hdata : policyTemplate.data
        = (policyHead ++ "<<QUEUE_ARN>>" ++ policyMiddle).data
            ++ ("<<TOPIC_ARN>>".data ++ (policyTail.data ++ [])) := by
      rw [policyTemplate_parts]; simp
    have hne : "<<TOPIC_ARN>>".data.isEmpty = false := by decide
    simp only [strings.ReplaceAll, hne, Bool.false_eq_true, if_false]
    rw [hdata, replaceScan_literal _ _ _ _ hA, replaceScan_match _ _ _ (by decide),
      replaceScan_literal _ _ _ _ hT]
    simp [strings.replaceScan]
  unfold policyDocument
  rw [h1]
  apply String.ext
  have hH : suffixesClash "<<QUEUE_ARN>>".data policyHead.data = true := by decide
  have hM : suffixesClash "<<QUEUE_ARN>>".data policyMiddle.data = true := by decide
  have hT : suffixesClash "<<QUEUE_ARN>>".data ('"' :: policyTail.data.tail) = true := by decide
  have htail : policyTail.data = '"' :: policyTail.data.tail := by decide
  have hd : '"' ∉ "<<QUEUE_ARN>>".data := by decide
  have hne : "<<QUEUE_ARN>>".data.isEmpty = false := by decide
  have hdata : (policyHead ++ "<<QUEUE_ARN>>" ++ policyMiddle ++ t ++ policyTail).data
      = policyHead.data ++ ("<<QUEUE_ARN>>".data ++ (policyMiddle.data ++
          (t.data ++ '"' :: (policyTail.data.tail ++ [])))) := by
    simp only [String.data_append, List.append_assoc, List.append_nil]
    rw [← htail]
  simp only [strings.ReplaceAll, hne, Bool.false_eq_true, if_false]
  rw [hdata, replaceScan_literal _ _ _ _ hH, replaceScan_match _ _ _ (by decide),
    replaceScan_literal _ _ _ _ hM, replaceScan_free _ _ _ _ _ ht hd,
    ← List.cons_append, replaceScan_literal _ _ _ _ hT]
  simp only [strings.replaceScan, String.data_append, List.append_assoc, List.append_nil]
  rw [← htail]

/-- After `GetQueueAttributes` has returned the attributes, the call that follows is
`SetQueueAttributes` on the URL of the queue with the policy document as only attribute,
and whatever happens next only adds to the log. -/
theorem NewSubscriber_setAttributes_logged {σ : Type} {fuel : Nat} {rand : Nat → Nat}
    {SNS : Option (SNSAPI σ)} {sqs : SQSAPI σ} {topicName : String} {w w1 : World σ}
    {topicArn url : String} {attrs : GetQueueAttributesOutput} {s2 s3 : σ}
    (hfind : findTopicArn fuel SNS topicName w = (.returned (topicArn, none), w1))
    (hcreate : sqs.CreateQueue { QueueName := some ("snstesting_" ++ rndString rand 20) } w1.remote
      = ((some { QueueUrl := some url }, none), s2))
    (hget : sqs.GetQueueAttributes { QueueUrl := some url, AttributeNames := ["QueueArn"] } s2
      = ((some attrs, none), s3)) :
    w1.log ++
      [Event.CreateQueue { QueueName := some ("snstesting_" ++ rndString rand 20) }
          (some { QueueUrl := some url }, none),
       Event.GetQueueAttributes { QueueUrl := some url, AttributeNames := ["QueueArn"] }
          (some attrs, none),
       Event.SetQueueAttributes
          { QueueUrl := some url,
            Attributes := [("Policy", policyDocument topicArn (attrs.Attributes.get "QueueArn"))] }
          (sqs.SetQueueAttributes
            { QueueUrl := some url,
              Attributes := [("Policy", policyDocument topicArn (attrs.Attributes.get "QueueArn"))] }
            s3).1]
      <+: (NewSubscriber fuel rand SNS (some sqs) topicName w).2.log := by
  unfold NewSubscriber
  simp only [Go.bind, hfind, Go.call, queueName_eq, hcreate, QueueAttributeNameQueueArn, hget,
    QueueAttributeNamePolicy]
  have hlog : ∀ (a b c : Event), w1.log ++ [a, b, c] = w1.log ++ [a] ++ [b] ++ [c] := by
    intro a b c; simp
  rw [hlog]
  refine (?_ : Go.Extends _) ⟨_, _⟩
  repeat' first
    | exact Go.Extends.pure _
    | exact Go.Extends.panic
    | exact Go.Extends.deref _
    | exact Go.Extends.call _ _ _
    | exact failWithCleanup_extends _ _ _ _
    | (refine Go.Extends.bind ?_ (fun _ => ?_))
    | split

set_option maxRecDepth 100000 in
/-- C11, as amended: when the resolved topic ARN does not hold the text `<<QUEUE_ARN>>`, the
policy document that `NewSubscriber` sends in `SetQueueAttributes` is `policyTemplate` with
`<<QUEUE_ARN>>` replaced by the queue ARN and `<<TOPIC_ARN>>` by the topic ARN, and so
contains the texts `"Resource": "q"` and `"aws:SourceArn": "t"`. -/
theorem NewSubscriber_policy {σ : Type} (fuel : Nat) (rand : Nat → Nat)
    (SNS : Option (SNSAPI σ)) (sqs : SQSAPI σ) (topicName : String) (w w1 : World σ)
    (topicArn url : String) (attrs : GetQueueAttributesOutput) (s2 s3 : σ)
    (hfind : findTopicArn fuel SNS topicName w = (.returned (topicArn, none), w1))
    (hcreate : sqs.CreateQueue { QueueName := some ("snstesting_" ++ rndString rand 20) } w1.remote
      = ((some { QueueUrl := some url }, none), s2))
    (hget : sqs.GetQueueAttributes { QueueUrl := some url, AttributeNames := ["QueueArn"] } s2
      = ((some attrs, none), s3))
    (ht : ¬ "<<QUEUE_ARN>>".data <:+: topicArn.data) :
    policyTemplate
      = policyHead ++ "<<QUEUE_ARN>>" ++ policyMiddle ++ "<<TOPIC_ARN>>" ++ policyTail ∧
    ∃ doc createEvent getEvent reply after,
      (NewSubscriber fuel rand SNS (some sqs) topicName w).2.log = w1.log ++
        [createEvent, getEvent,
         Event.SetQueueAttributes { QueueUrl := some url, Attributes := [("Policy", doc)] } reply]
        ++ after ∧
      doc = policyHead ++ attrs.Attributes.get "QueueArn" ++ policyMiddle ++ topicArn
              ++ policyTail ∧
      ("\"Resource\": \"" ++ attrs.Attributes.get "QueueArn" ++ "\"").data <:+: doc.data ∧
      ("\"aws:SourceArn\": \"" ++ topicArn ++ "\"").data <:+: doc.data := by
  refine ⟨policyTemplate_parts, ?_⟩
  obtain ⟨after, hafter⟩ := NewSubscriber_setAttributes_logged hfind hcreate hget
  refine ⟨_, _, _, _, after, hafter.symm, policyDocument_eq _ _ ht, ?_, ?_⟩
  · rw [policyDocument_eq _ _ ht]
    obtain ⟨h0, hh⟩ : ∃ h0, policyHead.data = h0 ++ "\"Resource\": \"".data :=
      ⟨policyHead.data.take (policyHead.data.length - 13), by decide⟩
    obtain ⟨m0, hm⟩ : ∃ m0, policyMiddle.data = '"' :: m0 := ⟨policyMiddle.data.tail, by decide⟩
    refine ⟨h0, m0 ++ topicArn.data ++ policyTail.data, ?_⟩
    simp only [String.data_append, List.append_assoc]
    rw [hh, hm]
    simp
  · rw [policyDocument_eq _ _ ht]
    obtain ⟨m0, hm⟩ : ∃ m0, policyMiddle.data = m0 ++ "\"aws:SourceArn\": \"".data :=
      ⟨policyMiddle.data.take (policyMiddle.data.length - 18), by decide⟩
    obtain ⟨t0, htl⟩ : ∃ t0, policyTail.data = '"' :: t0 := ⟨policyTail.data.tail, by decide⟩
    refine ⟨policyHead.data ++ (attrs.Attributes.get "QueueArn").data ++ m0, t0, ?_⟩
    simp only [String.data_append, List.append_assoc]
    rw [hm, htl]
    simp

set_option maxRecDepth 100000 in
/-- C11, on a topic whose ARN holds the placeholder of the queue ARN: topic resolution
returns `arn:foo:<<QUEUE_ARN>>`, one policy document is sent, and it does not contain
`"aws:SourceArn": "arn:foo:<<QUEUE_ARN>>"`: the second replacement has rewritten the topic
ARN. -/
theorem NewSubscriber_policy_placeholder :
    (findTopicArn 1
        (some (scriptedSNS
          [(some { Topics := [{ TopicArn := some "arn:foo:<<QUEUE_ARN>>" }] }, none)]
          (some { SubscriptionArn := some "arn:foo:bar:subscription" }, none) (some {}, none)))
        "foo" World.start).1 = .returned ("arn:foo:<<QUEUE_ARN>>", none) ∧
    (sentPolicies
        (NewSubscriber 1 (fun _ => 0)
          (some (scriptedSNS
            [(some { Topics := [{ TopicArn := some "arn:foo:<<QUEUE_ARN>>" }] }, none)]
            (some { SubscriptionArn := some "arn:foo:bar:subscription" }, none) (some {}, none)))
          (some (testSQS testAttrs (some {}, none) (none, none))) "foo" World.start).2.log).map
      (fun doc => strings.Contains doc "\"aws:SourceArn\": \"arn:foo:<<QUEUE_ARN>>\"")
      = [false] := by
  constructor <;> decide

set_option maxRecDepth 100000 in
/-- C11, on the test `success`: the document sent holds the queue ARN
`arn:foo:bar:testingqueue` as resource and the topic ARN `arn:foo:bar:sometopic` as source. -/
theorem NewSubscriber_policy_witness :
    ∃ doc createEvent getEvent reply after,
      (NewSubscriber 1 (fun _ => 0)
          (some (testSNS (some { SubscriptionArn := some "arn:foo:bar:subscription" }, none)))
          (some (testSQS testAttrs (some {}, none) (none, none))) "sometopic" World.start).2.log
        = (World.mk 1
            [Event.ListTopics {}
              (some { Topics := [{ TopicArn := some "arn:foo:bar:sometopic" }] }, none)]).log ++
        [createEvent, getEvent,
         Event.SetQueueAttributes
            { QueueUrl := some "http://queue.url", Attributes := [("Policy", doc)] } reply]
        ++ after ∧
      doc = policyHead ++ StringMap.get [("QueueArn", "arn:foo:bar:testingqueue")] "QueueArn"
              ++ policyMiddle ++ "arn:foo:bar:sometopic" ++ policyTail ∧
      ("\"Resource\": \"" ++ StringMap.get [("QueueArn", "arn:foo:bar:testingqueue")] "QueueArn"
          ++ "\"").data <:+: doc.data ∧
      ("\"aws:SourceArn\": \"" ++ "arn:foo:bar:sometopic" ++ "\"").data <:+: doc.data :=
  (NewSubscriber_policy 1 (fun _ => 0)
    (some (testSNS (some { SubscriptionArn := some "arn:foo:bar:subscription" }, none)))
    (testSQS testAttrs (some {}, none) (none, none)) "sometopic" World.start _
    "arn:foo:bar:sometopic" "http://queue.url"
    { Attributes := [("QueueArn", "arn:foo:bar:testingqueue")] } 1 1 rfl rfl rfl (by decide)).2

/-- C14, on the zero `Subscriber` (the value `NewSubscriber` returns with an error): its
SQS client is nil, `Receive` panics on the method call and no `ReceiveMessage` call is
issued. -/
theorem Receive_calls_nil_client :
    (Subscriber.Receive ({} : Subscriber Nat) World.start).1 = .panicked ∧
    (Subscriber.Receive ({} : Subscriber Nat) World.start).2.log = [] := by
  constructor <;> rfl

/-! ## The fields of a returned `Subscriber` -/

theorem scanTopics_contains {topicName arn : String} {topics : List Topic}
    (h : scanTopics topicName topics = some arn) : topicName.data <:+: arn.data := by
  rw [scanTopics_eq_find] at h
  simpa using List.find?_some h

/-- An ARN that topic resolution returns contains the topic name, whatever the service. -/
theorem findTopicArnLoop_contains {σ : Type} (cli : Option (SNSAPI σ)) (topicName : String) :
    ∀ (fuel : Nat) (tok : Option String) (w w1 : World σ) (arn : String),
      findTopicArnLoop cli topicName fuel tok w = (.returned (arn, none), w1) →
      topicName.data <:+: arn.data := by
  intro fuel
  induction fuel with
  | zero => intro tok w w1 arn h; simp [findTopicArnLoop] at h
  | succ n ih =>
    intro tok w w1 arn h
    unfold findTopicArnLoop at h
    obtain ⟨⟨o, e⟩, wc, -, h⟩ := Go.bind_returned h
    cases e with
    | some err => simp [Go.pure] at h
    | none =>
      cases o with
      | none => simp [Go.panic] at h
      | some out =>
        simp only at h
        cases hscan : scanTopics topicName out.Topics with
        | some found =>
          rw [hscan] at h
          simp only [Go.pure, Prod.mk.injEq, Outcome.returned.injEq, and_true] at h
          rw [← h.1]
          exact scanTopics_contains hscan
        | none =>
          rw [hscan] at h
          cases htok : out.NextToken with
          | none => rw [htok] at h; simp [Go.pure] at h
          | some t => rw [htok] at h; exact ih _ _ _ _ h

theorem scanTopics_mem {topicName arn : String} {topics : List Topic}
    (h : scanTopics topicName topics = some arn) :
    ∃ t ∈ topics, t.TopicArn = some arn := by
  induction topics with
  | nil => simp [scanTopics] at h
  | cons t ts ih =>
    unfold scanTopics at h
    cases ht : t.TopicArn with
    | none =>
      rw [ht] at h
      obtain ⟨t2, hmem, h2⟩ := ih h
      exact ⟨t2, List.mem_cons_of_mem _ hmem, h2⟩
    | some a =>
      rw [ht] at h
      simp only at h
      split at h
      · simp only [Option.some.injEq] at h
        exact ⟨t, List.mem_cons_self _ _, by rw [ht, h]⟩
      · obtain ⟨t2, hmem, h2⟩ := ih h
        exact ⟨t2, List.mem_cons_of_mem _ hmem, h2⟩

/-- An ARN that topic resolution returns is the ARN of a topic of the page that its last
`ListTopics` call got, whatever the service. -/
theorem findTopicArnLoop_listed {σ : Type} (cli : Option (SNSAPI σ)) (topicName : String) :
    ∀ (fuel : Nat) (tok : Option String) (w w1 : World σ) (arn : String),
      findTopicArnLoop cli topicName fuel tok w = (.returned (arn, none), w1) →
      ∃ before input out t,
        w1.log = before ++ [Event.ListTopics input (some out, none)] ∧
        t ∈ out.Topics ∧ t.TopicArn = some arn := by
  intro fuel
  induction fuel with
  | zero => intro tok w w1 arn h; simp [findTopicArnLoop] at h
  | succ n ih =>
    intro tok w w1 arn h
    unfold findTopicArnLoop at h
    obtain ⟨⟨o, e⟩, wc, hcall, h⟩ := Go.bind_returned h
    obtain ⟨c, -, -, hwc⟩ := Go.call_returned hcall
    cases e with
    | some err => simp [Go.pure] at h
    | none =>
      cases o with
      | none => simp [Go.panic] at h
      | some out =>
        simp only at h
        cases hscan : scanTopics topicName out.Topics with
        | some found =>
          rw [hscan] at h
          simp only [Go.pure, Prod.mk.injEq, Outcome.returned.injEq, and_true] at h
          obtain ⟨harn, hw⟩ := h
          obtain ⟨t, hmem, ht⟩ := scanTopics_mem hscan
          refine ⟨w.log, { NextToken := tok }, out, t, ?_, hmem, by rw [ht, harn]⟩
          rw [← hw, hwc]
        | none =>
          rw [hscan] at h
          cases htok : out.NextToken with
          | none => rw [htok] at h; simp [Go.pure] at h
          | some t => rw [htok] at h; exact ih _ _ _ _ h

/-- With the SQS client at hand and the URL present, the rollback return returns. -/
theorem failWithCleanup_returns {σ : Type} (sqs : SQSAPI σ) (pre : String) (err : GoError)
    (url : String) (w : World σ) :
    ∃ r w2, failWithCleanup (some sqs) pre err (some url) w = (.returned r, w2) :=
  ⟨_, _, rfl⟩

/-- Once topic resolution has returned, `NewSubscriber` returns when the clients are there
and the replies without error are complete. -/
theorem NewSubscriber_returns_of_resolved {σ : Type} {fuel : Nat} {rand : Nat → Nat}
    {sns : SNSAPI σ} {sqs : SQSAPI σ} {topicName : String} {w w1 : World σ}
    {found : String × Option GoError}
    (hpre : RepliesComplete sns sqs)
    (hfind : findTopicArn fuel (some sns) topicName w = (.returned found, w1)) :
    ∃ r w2, NewSubscriber fuel rand (some sns) (some sqs) topicName w = (.returned r, w2) := by
  obtain ⟨-, hsubscribe, -, hcreate, -, hget, -, -⟩ := hpre
  unfold NewSubscriber
  simp only [Go.bind, hfind]
  obtain ⟨topicArn, ferr⟩ := found
  cases ferr with
  | some e => exact ⟨_, _, rfl⟩
  | none =>
    have hc := hcreate { QueueName := some (fmt.Sprintf_s "snstesting_" (rndString rand 20) "") }
      w1.remote
    rcases hcr : sqs.CreateQueue
      { QueueName := some (fmt.Sprintf_s "snstesting_" (rndString rand 20) "") } w1.remote
      with ⟨⟨co, ce⟩, s2⟩
    rw [hcr] at hc
    simp only [Go.bind, Go.call, hcr]
    cases ce with
    | some e => exact ⟨_, _, rfl⟩
    | none =>
      obtain ⟨url, hurl⟩ := hc rfl
      simp only at hurl
      subst hurl
      have hg := hget { QueueUrl := some url, AttributeNames := [QueueAttributeNameQueueArn] } s2
      rcases hgr : sqs.GetQueueAttributes
        { QueueUrl := some url, AttributeNames := [QueueAttributeNameQueueArn] } s2
        with ⟨⟨go, ge⟩, s3⟩
      rw [hgr] at hg
      simp only [Go.bind, Go.call, hgr]
      cases ge with
      | some e => exact failWithCleanup_returns sqs _ e url _
      | none =>
        cases go with
        | none => exact absurd rfl (hg rfl)
        | some attrs =>
          rcases hsr : sqs.SetQueueAttributes
            { QueueUrl := some url,
              Attributes := [(QueueAttributeNamePolicy,
                strings.ReplaceAll (strings.ReplaceAll policyTemplate "<<TOPIC_ARN>>" topicArn)
                  "<<QUEUE_ARN>>" (attrs.Attributes.get QueueAttributeNameQueueArn))] } s3
            with ⟨⟨so, se⟩, s4⟩
          simp only [Go.bind, Go.call, hsr]
          cases se with
          | some e => exact failWithCleanup_returns sqs _ e url _
          | none =>
            have hb := hsubscribe
              { Protocol := some "sqs", TopicArn := some topicArn,
                Endpoint := some (attrs.Attributes.get QueueAttributeNameQueueArn) } s4
            rcases hbr : sns.Subscribe
              { Protocol := some "sqs", TopicArn := some topicArn,
                Endpoint := some (attrs.Attributes.get QueueAttributeNameQueueArn) } s4
              with ⟨⟨bo, be⟩, s5⟩
            rw [hbr] at hb
            simp only [Go.bind, Go.call, hbr]
            cases be with
            | some e => exact failWithCleanup_returns sqs _ e url _
            | none =>
              obtain ⟨arn, harn⟩ := hb rfl
              simp only at harn
              subst harn
              exact ⟨_, _, rfl⟩

/-- C13, as amended: every return of `NewSubscriber`, whatever the topic name and the
behaviour of the services, is either a non-nil error with the zero `Subscriber`, or a nil
error with a `Subscriber` whose six fields are all assigned: `TopicName` is the given name;
`TopicARN` is the ARN that `findTopicArn` returned, it is the ARN of a topic of the page
that the last `ListTopics` call of the run got, and it contains the name; `QueueName` is
the generated name of 31 characters, never empty; `QueueURL`, `QueueARN` and
`SubscriptionARN` are the URL that `CreateQueue` returned, the value of the attribute
`QueueArn` that `GetQueueAttributes` returned (the empty string when it is missing) and the
ARN that `Subscribe` returned.  `TopicName` and `TopicARN` are not empty when the given
name is not.  And `NewSubscriber` does return when the clients are not nil, the topics are
served as a finite listing that the fuel covers, and every remote call that replies with a
nil error replies with a complete output. -/
theorem NewSubscriber_all_or_nothing {σ : Type} (fuel : Nat) (rand : Nat → Nat)
    (SNS : Option (SNSAPI σ)) (SQS : Option (SQSAPI σ)) (topicName : String) (w : World σ) :
    (∀ (sub : Subscriber σ) (err : Option GoError) (w2 : World σ),
      NewSubscriber fuel rand SNS SQS topicName w = (.returned (sub, err), w2) →
      (err ≠ none ∧ sub.SNS = none ∧ sub.SQS = none ∧ sub.Config = {}) ∨
      (err = none ∧
        sub.Config.TopicName = topicName ∧
        (∃ w1, findTopicArn fuel SNS topicName w = (.returned (sub.Config.TopicARN, none), w1)) ∧
        topicName.data <:+: sub.Config.TopicARN.data ∧
        (topicName ≠ "" → sub.Config.TopicName ≠ "" ∧ sub.Config.TopicARN ≠ "") ∧
        sub.Config.QueueName.length = 31 ∧ sub.Config.QueueName ≠ "" ∧
        ∃ before listInput page topic createInput getInput attrs setEvent subscribeInput,
          w2.log = before ++
            [Event.ListTopics listInput (some page, none),
             Event.CreateQueue createInput (some { QueueUrl := some sub.Config.QueueURL }, none),
             Event.GetQueueAttributes getInput (some attrs, none),
             setEvent,
             Event.Subscribe subscribeInput
                (some { SubscriptionArn := some sub.Config.SubscriptionARN }, none)] ∧
          topic ∈ page.Topics ∧ topic.TopicArn = some sub.Config.TopicARN ∧
          sub.Config.QueueARN = attrs.Attributes.get "QueueArn")) ∧
    (∀ (sns : SNSAPI σ) (sqs : SQSAPI σ) (pages : List ListTopicsOutput),
      SNS = some sns → SQS = some sqs → RepliesComplete sns sqs →
      ServesListing sns pages none w.remote → pages.length ≤ fuel →
      ∃ sub err w2, NewSubscriber fuel rand SNS SQS topicName w = (.returned (sub, err), w2)) := by
  constructor
  · intro sub err w2 h
    cases err with
    | some e =>
      left
      rw [NewSubscriber_error_inv h]
      exact ⟨by simp, rfl, rfl, rfl⟩
    | none =>
      right
      obtain ⟨sns, sqs, topicArn, url, subArn, w1, attrs, setOut, s2, s3, s4, s5, hsns, hsqs,
        hfind, -, -, -, -, hsub, hw⟩ := NewSubscriber_success_inv h
      subst hsub hw
      have hcontains : topicName.data <:+: topicArn.data :=
        findTopicArnLoop_contains SNS topicName fuel none w w1 topicArn hfind
      obtain ⟨before, listInput, page, topic, hlog, hmem, htopic⟩ :=
        findTopicArnLoop_listed SNS topicName fuel none w w1 topicArn hfind
      have hlen : ("snstesting_" ++ rndString rand 20).length = 31 := by
        rw [String.length_append, rndString_length]; decide
      refine ⟨rfl, rfl, ⟨w1, hfind⟩, hcontains, ?_, hlen, ?_, before, listInput, page, topic,
        { QueueName := some ("snstesting_" ++ rndString rand 20) },
        { QueueUrl := some url, AttributeNames := ["QueueArn"] }, attrs,
        Event.SetQueueAttributes
          { QueueUrl := some url,
            Attributes := [("Policy", policyDocument topicArn (attrs.Attributes.get "QueueArn"))] }
          (setOut, none),
        { Protocol := some "sqs", TopicArn := some topicArn,
          Endpoint := some (attrs.Attributes.get "QueueArn") },
        ?_, hmem, htopic, rfl⟩
      · intro hne
        refine ⟨hne, ?_⟩
        intro harn
        have harn2 : topicArn = "" := harn
        rw [harn2] at hcontains
        have : topicName.data = [] := by simpa using hcontains
        exact hne (String.ext this)
      · intro hempty
        have hempty2 : "snstesting_" ++ rndString rand 20 = "" := hempty
        rw [hempty2] at hlen
        exact absurd hlen (by decide)
      · show w1.log ++ _ = _
        rw [hlog]
        simp
  · intro sns sqs pages hsns hsqs hpre hserve hfuel
    subst hsns hsqs
    have hres : (findTopicArn fuel (some sns) topicName w).1
        = .returned (firstMatch topicName pages) :=
      findTopicArnLoop_listing sns topicName pages none w fuel hserve hfuel
    rcases hfind : findTopicArn fuel (some sns) topicName w with ⟨o1, w1⟩
    rw [hfind] at hres
    simp only at hres
    subst hres
    obtain ⟨r, w2, hr⟩ := @NewSubscriber_returns_of_resolved σ fuel rand sns sqs topicName w w1
      _ hpre hfind
    exact ⟨r.1, r.2, w2, hr⟩

/-- C13, on the test `success` with complete replies: the run returns, with a nil error,
the given name and a `TopicARN` that contains it. -/
theorem NewSubscriber_all_or_nothing_witness :
    (∃ sub err w2,
      NewSubscriber 1 (fun _ => 0)
          (some (testSNS (some { SubscriptionArn := some "arn:foo:bar:subscription" }, none)))
          (some completeSQS) "sometopic" World.start
        = (.returned (sub, err), w2)) ∧
    (∃ sub w2,
      NewSubscriber 1 (fun _ => 0)
          (some (testSNS (some { SubscriptionArn := some "arn:foo:bar:subscription" }, none)))
          (some completeSQS) "sometopic" World.start
        = (.returned (sub, none), w2) ∧
      sub.Config.TopicName = "sometopic" ∧
      "sometopic".data <:+: sub.Config.TopicARN.data ∧
      sub.Config.QueueName.length = 31) := by
  have hthm := NewSubscriber_all_or_nothing 1 (fun _ => 0)
    (some (testSNS (some { SubscriptionArn := some "arn:foo:bar:subscription" }, none)))
    (some completeSQS) "sometopic" World.start
  have hpre : RepliesComplete
      (testSNS (some { SubscriptionArn := some "arn:foo:bar:subscription" }, none))
      completeSQS := by
    refine ⟨?_, ?_, ?_, ?_, ?_, ?_, ?_, ?_⟩
    · intro i s
      cases s <;> simp [testSNS, scriptedSNS]
    · intro i s _; exact ⟨_, rfl⟩
    · intro i s _; simp [testSNS, scriptedSNS]
    · intro i s _; exact ⟨_, rfl⟩
    · intro i s _; simp [completeSQS, scriptedSQS]
    · intro i s _; simp [completeSQS, scriptedSQS, testAttrs]
    · intro i s _; simp [completeSQS, scriptedSQS]
    · intro i s _
      refine ⟨_, rfl, ?_⟩
      intro m rest hm
      simp only [List.cons.injEq] at hm
      rw [← hm.1]
      simp
  refine ⟨hthm.2 _ _ [{ Topics := [{ TopicArn := some "arn:foo:bar:sometopic" }] }] rfl rfl hpre
    ⟨rfl, rfl⟩ (by decide), _, _, rfl, ?_⟩
  have hcase := (hthm.1 _ none _ rfl).resolve_left (fun hl => hl.1 rfl)
  exact ⟨hcase.2.1, hcase.2.2.2.1, hcase.2.2.2.2.2.1⟩

/-- C13, on two variations of the test `success`.  With a reply of `GetQueueAttributes`
that holds no attribute the run returns a nil error and a `Subscriber` whose `QueueARN` is
empty; with a reply of `CreateQueue` that carries neither an output nor an error the run
does not return: it panics on the nil output. -/
theorem NewSubscriber_empty_field :
    (∃ sub w2,
      NewSubscriber 1 (fun _ => 0)
          (some (testSNS (some { SubscriptionArn := some "arn:foo:bar:subscription" }, none)))
          (some (testSQS (some {}, none) (some {}, none) (none, none))) "sometopic" World.start
        = (.returned (sub, none), w2) ∧
      sub.Config.QueueARN = "") ∧
    (NewSubscriber 1 (fun _ => 0)
        (some (testSNS (some { SubscriptionArn := some "arn:foo:bar:subscription" }, none)))
        (some (scriptedSQS (none, none) (none, none) (none, none) (none, none) (none, none)))
        "sometopic" World.start).1 = .panicked :=
  ⟨⟨_, _, rfl, rfl⟩, rfl⟩

/-! ## The calls of topic resolution -/

/-- The calls of the paging loop, for any service and any fuel: at most one per unit of
fuel, chained by their tokens, none after a failed call or a page with a match. -/
theorem findTopicArnLoop_chain {σ : Type} (cli : SNSAPI σ) (topicName : String) :
    ∀ (fuel : Nat) (tok : Option String) (w : World σ),
      ∃ calls, (findTopicArnLoop (some cli) topicName fuel tok w).2.log = w.log ++ calls ∧
        calls.length ≤ fuel ∧ CallChain topicName tok calls := by
  intro fuel
  induction fuel with
  | zero => intro tok w; exact ⟨[], by simp [findTopicArnLoop], by simp, trivial⟩
  | succ n ih =>
    intro tok w
    unfold findTopicArnLoop
    simp only [Go.bind, Go.call]
    rcases hr : cli.ListTopics { NextToken := tok } w.remote with ⟨⟨o, e⟩, s1⟩
    have single : ∃ calls,
        w.log ++ [Event.ListTopics { NextToken := tok } (o, e)] = w.log ++ calls ∧
        calls.length ≤ n + 1 ∧ CallChain topicName tok calls :=
      ⟨[Event.ListTopics { NextToken := tok } (o, e)], rfl, by simp, rfl, Or.inl rfl⟩
    cases e with
    | some err => exact single
    | none =>
      cases o with
      | none => exact single
      | some out =>
        simp only
        cases hscan : scanTopics topicName out.Topics with
        | some arn => exact single
        | none =>
          cases htok : out.NextToken with
          | none => exact single
          | some t =>
            simp only
            obtain ⟨calls, hlog, hlen, hchain⟩ :=
              ih (some t) ⟨s1, w.log ++ [Event.ListTopics { NextToken := tok } (some out, none)]⟩
            refine ⟨Event.ListTopics { NextToken := tok } (some out, none) :: calls, ?_, ?_, ?_⟩
            · rw [hlog]; simp
            · simpa using hlen
            · refine ⟨rfl, Or.inr ⟨out, t, rfl, htok, ?_, hchain⟩⟩
              intro arn harn
              rw [scanTopics_eq_find] at hscan
              simp only [listedArns, List.append_nil] at harn
              simpa using List.find?_eq_none.1 hscan arn harn

/-- On a finite listing the paging loop makes at least one call and at most one per page. -/
theorem findTopicArnLoop_count {σ : Type} (cli : SNSAPI σ) (topicName : String) :
    ∀ (pages : List ListTopicsOutput) (tok : Option String) (w : World σ) (fuel : Nat),
      ServesListing cli pages tok w.remote → pages.length ≤ fuel →
      ∃ calls, (findTopicArnLoop (some cli) topicName fuel tok w).2.log = w.log ++ calls ∧
        1 ≤ calls.length ∧ calls.length ≤ pages.length := by
  intro pages
  induction pages with
  | nil => intro tok w fuel h; exact absurd h (by simp [ServesListing])
  | cons p ps ih =>
    intro tok w fuel hs hf
    obtain ⟨n, rfl⟩ : ∃ n, fuel = n + 1 := ⟨fuel - 1, by simp at hf; omega⟩
    have single : ∀ ev : Event, ∃ calls, w.log ++ [ev] = w.log ++ calls ∧
        1 ≤ calls.length ∧ calls.length ≤ (p :: ps).length :=
      fun ev => ⟨[ev], rfl, by simp, by simp⟩
    cases ps with
    | nil =>
      obtain ⟨h1, h2⟩ := hs
      rcases hr : cli.ListTopics { NextToken := tok } w.remote with ⟨r, s1⟩
      rw [hr] at h1
      simp only at h1
      subst h1
      simp only [findTopicArnLoop, Go.bind, Go.call, hr, h2]
      cases scanTopics topicName p.Topics <;> exact single _
    | cons q qs =>
      obtain ⟨h1, h2, h3⟩ := hs
      obtain ⟨t, ht⟩ := Option.ne_none_iff_exists'.1 h2
      rcases hr : cli.ListTopics { NextToken := tok } w.remote with ⟨r, s1⟩
      rw [hr] at h1 h3
      simp only at h1 h3
      subst h1
      simp only [findTopicArnLoop, Go.bind, Go.call, hr, ht]
      cases scanTopics topicName p.Topics with
      | some arn => exact single _
      | none =>
        simp only
        obtain ⟨calls, hlog, h1len, hlen⟩ :=
          ih (some t) ⟨s1, w.log ++ [Event.ListTopics { NextToken := tok } (some p, none)]⟩ n
            (by simpa [ht] using h3) (by simpa using hf)
        refine ⟨Event.ListTopics { NextToken := tok } (some p, none) :: calls, ?_, by simp, ?_⟩
        · rw [hlog]; simp
        · simpa using hlen

/-- C15: for every service and every fuel the `ListTopics` calls of `findTopicArn` are at
most one per unit of fuel and are chained: the first call carries no token, a call is
followed by another one only if it replied without error with a page that holds no
matching ARN and carries a `NextToken`, and the next call carries exactly that token.  On
a listing of N pages chained by their `NextToken`, `findTopicArn` with fuel for N rounds
returns after at least one and at most N such calls. -/
theorem findTopicArn_calls {σ : Type} (cli : SNSAPI σ) (topicName : String)
    (pages : List ListTopicsOutput) (w : World σ) (fuel : Nat)
    (hserve : ServesListing cli pages none w.remote) (hfuel : pages.length ≤ fuel) :
    (∀ (fuel2 : Nat) (w2 : World σ), ∃ calls,
      (findTopicArn fuel2 (some cli) topicName w2).2.log = w2.log ++ calls ∧
      calls.length ≤ fuel2 ∧ CallChain topicName none calls) ∧
    (∃ result calls,
      (findTopicArn fuel (some cli) topicName w).1 = .returned result ∧
      (findTopicArn fuel (some cli) topicName w).2.log = w.log ++ calls ∧
      1 ≤ calls.length ∧ calls.length ≤ pages.length ∧
      CallChain topicName none calls) := by
  refine ⟨fun fuel2 w2 => findTopicArnLoop_chain cli topicName fuel2 none w2, ?_⟩
  obtain ⟨calls, hlog, h1, hlen⟩ := findTopicArnLoop_count cli topicName pages none w fuel hserve hfuel
  obtain ⟨calls2, hlog2, -, hchain⟩ := findTopicArnLoop_chain cli topicName fuel none w
  have heq : calls2 = calls := List.append_cancel_left (hlog2.symm.trans hlog)
  subst heq
  exact ⟨_, calls2, findTopicArnLoop_listing cli topicName pages none w fuel hserve hfuel,
    hlog, h1, hlen, hchain⟩

/-- C15, on the listing of the paging test: the two pages are fetched by two calls, the
second with the token `page 2`. -/
theorem findTopicArn_calls_witness :
    ∃ result calls,
      (findTopicArn 2
        (some (scriptedSNS
          [(some { NextToken := some "page 2", Topics := [{ TopicArn := some "arn:foo:bar" }] }, none),
           (some { Topics := [{ TopicArn := some "arn:foo:bar:sometopic" }] }, none)]
          (none, none) (none, none)))
        "sometopic" World.start).1 = .returned result ∧
      (findTopicArn 2
        (some (scriptedSNS
          [(some { NextToken := some "page 2", Topics := [{ TopicArn := some "arn:foo:bar" }] }, none),
           (some { Topics := [{ TopicArn := some "arn:foo:bar:sometopic" }] }, none)]
          (none, none) (none, none)))
        "sometopic" World.start).2.log = World.start.log ++ calls ∧
      1 ≤ calls.length ∧
      calls.length ≤
        [({ NextToken := some "page 2", Topics := [{ TopicArn := some "arn:foo:bar" }] } :
            ListTopicsOutput),
         { Topics := [{ TopicArn := some "arn:foo:bar:sometopic" }] }].length ∧
      CallChain "sometopic" none calls :=
  (findTopicArn_calls _ "sometopic"
    [{ NextToken := some "page 2", Topics := [{ TopicArn := some "arn:foo:bar" }] },
     { Topics := [{ TopicArn := some "arn:foo:bar:sometopic" }] }]
    World.start 2 ⟨rfl, by decide, rfl, rfl⟩ (by decide)).2
/-! ## Nil dereferences -/

/-- Under the precondition on `ListTopics`, the paging loop does not panic. -/
theorem findTopicArnLoop_no_panic {σ : Type} (sns : SNSAPI σ) (topicName : String)
    (hlist : ∀ i s, (sns.ListTopics i s).1.2 = none → (sns.ListTopics i s).1.1 ≠ none) :
    ∀ (fuel : Nat) (tok : Option String) (w : World σ),
      (findTopicArnLoop (some sns) topicName fuel tok w).1 ≠ .panicked := by
  intro fuel
  induction fuel with
  | zero => intro tok w; simp [findTopicArnLoop]
  | succ n ih =>
    intro tok w
    unfold findTopicArnLoop
    simp only [Go.bind, Go.call]
    have hl := hlist { NextToken := tok } w.remote
    rcases hr : sns.ListTopics { NextToken := tok } w.remote with ⟨⟨o, e⟩, s1⟩
    rw [hr] at hl
    cases e with
    | some err => simp [Go.pure]
    | none =>
      cases o with
      | none => exact absurd rfl (hl rfl)
      | some out =>
        simp only
        cases scanTopics topicName out.Topics with
        | some arn => simp [Go.pure]
        | none =>
          cases out.NextToken with
          | none => simp [Go.pure]
          | some t => exact ih _ _

/-- With the SQS client at hand and the precondition on `DeleteQueue` not even needed, the
rollback return does not panic once the URL is present. -/
theorem failWithCleanup_no_panic {σ : Type} (sqs : SQSAPI σ) (pre : String) (err : GoError)
    (url : String) (w : World σ) :
    (failWithCleanup (some sqs) pre err (some url) w).1 ≠ .panicked := by
  simp [failWithCleanup, cleanupQueue, Go.bind, Go.deref, Go.pure, Go.call]

/-- C16, as amended: when the clients are not nil and every remote call that replies with a
nil error also replies with a non-nil output in which `QueueUrl`, `SubscriptionArn` and the
`Body` of the first message are present, `NewSubscriber`, `Receive` and `Cleanup` do not
panic, whatever comes with a reply that carries an error; a topic whose `TopicArn` is nil
is skipped, and a missing attribute `QueueArn` reads as the empty string. -/
theorem no_nil_dereference {σ : Type} (sns : SNSAPI σ) (sqs : SQSAPI σ)
    (hpre : RepliesComplete sns sqs) :
    (∀ fuel rand topicName (w : World σ),
      (NewSubscriber fuel rand (some sns) (some sqs) topicName w).1 ≠ .panicked) ∧
    (∀ (s : Subscriber σ) (w : World σ), s.SQS = some sqs →
      ∃ result, (s.Receive w).1 = .returned result) ∧
    (∀ (s : Subscriber σ) (w : World σ), s.SNS = some sns → s.SQS = some sqs →
      ∃ result, (s.Cleanup w).1 = .returned result) ∧
    (∀ topicName rest, scanTopics topicName ({ TopicArn := none } :: rest)
      = scanTopics topicName rest) ∧
    (∀ m : StringMap, m.lookup "QueueArn" = none → m.get "QueueArn" = "") := by
  obtain ⟨hlist, hsubscribe, -, hcreate, -, hget, -, hreceive⟩ := hpre
  refine ⟨?_, ?_, ?_, fun _ _ => rfl, fun m hm => by simp [StringMap.get, hm]⟩
  · intro fuel rand topicName w
    have hloop : (findTopicArn fuel (some sns) topicName w).1 ≠ .panicked :=
      findTopicArnLoop_no_panic sns topicName hlist fuel none w
    unfold NewSubscriber
    rcases hfind : findTopicArn fuel (some sns) topicName w with ⟨o1, w1⟩
    rw [hfind] at hloop
    simp only [Go.bind, hfind]
    cases o1 with
    | panicked => exact absurd rfl hloop
    | outOfFuel => simp
    | returned found =>
      obtain ⟨topicArn, ferr⟩ := found
      cases ferr with
      | some e => simp [Go.pure]
      | none =>
        have hc := hcreate { QueueName := some (fmt.Sprintf_s "snstesting_" (rndString rand 20) "") }
          w1.remote
        rcases hcr : sqs.CreateQueue
          { QueueName := some (fmt.Sprintf_s "snstesting_" (rndString rand 20) "") } w1.remote
          with ⟨⟨co, ce⟩, s2⟩
        rw [hcr] at hc
        simp only [Go.bind, Go.call, hcr]
        cases ce with
        | some e => simp [Go.pure]
        | none =>
          obtain ⟨url, hurl⟩ := hc rfl
          simp only at hurl
          subst hurl
          have hg := hget { QueueUrl := some url, AttributeNames := [QueueAttributeNameQueueArn] } s2
          rcases hgr : sqs.GetQueueAttributes
            { QueueUrl := some url, AttributeNames := [QueueAttributeNameQueueArn] } s2
            with ⟨⟨go, ge⟩, s3⟩
          rw [hgr] at hg
          simp only [Go.bind, Go.call, hgr]
          cases ge with
          | some e => exact failWithCleanup_no_panic sqs _ e url _
          | none =>
            cases go with
            | none => exact absurd rfl (hg rfl)
            | some attrs =>
              rcases hsr : sqs.SetQueueAttributes
                { QueueUrl := some url,
                  Attributes := [(QueueAttributeNamePolicy,
                    strings.ReplaceAll (strings.ReplaceAll policyTemplate "<<TOPIC_ARN>>" topicArn)
                      "<<QUEUE_ARN>>" (attrs.Attributes.get QueueAttributeNameQueueArn))] } s3
                with ⟨⟨so, se⟩, s4⟩
              simp only [Go.bind, Go.call, hsr]
              cases se with
              | some e => exact failWithCleanup_no_panic sqs _ e url _
              | none =>
                have hb := hsubscribe
                  { Protocol := some "sqs", TopicArn := some topicArn,
                    Endpoint := some (attrs.Attributes.get QueueAttributeNameQueueArn) } s4
                rcases hbr : sns.Subscribe
                  { Protocol := some "sqs", TopicArn := some topicArn,
                    Endpoint := some (attrs.Attributes.get QueueAttributeNameQueueArn) } s4
                  with ⟨⟨bo, be⟩, s5⟩
                rw [hbr] at hb
                simp only [Go.bind, Go.call, hbr]
                cases be with
                | some e => exact failWithCleanup_no_panic sqs _ e url _
                | none =>
                  obtain ⟨arn, harn⟩ := hb rfl
                  simp only at harn
                  subst harn
                  simp [Go.deref, Go.pure, Go.bind]
  · intro s w hsqs
    unfold Subscriber.Receive
    have hr := hreceive
      { QueueUrl := some s.Config.QueueURL, MaxNumberOfMessages := 1,
        VisibilityTimeout := 3600, WaitTimeSeconds := 3 } w.remote
    rcases hrr : sqs.ReceiveMessage
      { QueueUrl := some s.Config.QueueURL, MaxNumberOfMessages := 1,
        VisibilityTimeout := 3600, WaitTimeSeconds := 3 } w.remote with ⟨⟨o, e⟩, s1⟩
    rw [hrr] at hr
    simp only [Go.bind, Go.call, hsqs, hrr]
    cases e with
    | some err => exact ⟨_, rfl⟩
    | none =>
      obtain ⟨out, hout, hbody⟩ := hr rfl
      simp only at hout
      subst hout
      cases hm : out.Messages with
      | nil => simp [hm, Go.pure]
      | cons m rest =>
        obtain ⟨b, hb⟩ := Option.ne_none_iff_exists'.1 (hbody m rest hm)
        simp [hm, hb, Go.deref, Go.pure, Go.bind]
  · intro s w hsns hsqs
    simp [Subscriber.Cleanup, unsubscribe, cleanupQueue, Go.bind, Go.call, Go.pure, hsns, hsqs]

/-- C16, on the mocks of the test `success`, whose replies are complete: the run of
`NewSubscriber` does not panic. -/
theorem no_nil_dereference_witness :
    RepliesComplete
        (testSNS (some { SubscriptionArn := some "arn:foo:bar:subscription" }, none))
        completeSQS ∧
    (NewSubscriber 1 (fun _ => 0)
        (some (testSNS (some { SubscriptionArn := some "arn:foo:bar:subscription" }, none)))
        (some completeSQS) "sometopic" World.start).1 ≠ .panicked := by
  have hpre : RepliesComplete
      (testSNS (some { SubscriptionArn := some "arn:foo:bar:subscription" }, none))
      completeSQS := by
    refine ⟨?_, ?_, ?_, ?_, ?_, ?_, ?_, ?_⟩
    · intro i s
      cases s <;> simp [testSNS, scriptedSNS]
    · intro i s _; exact ⟨_, rfl⟩
    · intro i s _; simp [testSNS, scriptedSNS]
    · intro i s _; exact ⟨_, rfl⟩
    · intro i s _; simp [completeSQS, scriptedSQS]
    · intro i s _; simp [completeSQS, scriptedSQS, testAttrs]
    · intro i s _; simp [completeSQS, scriptedSQS]
    · intro i s _
      refine ⟨_, rfl, ?_⟩
      intro m rest hm
      simp only [List.cons.injEq] at hm
      rw [← hm.1]
      simp
  exact ⟨hpre, (no_nil_dereference _ _ hpre).1 1 (fun _ => 0) "sometopic" World.start⟩

/-- C16, on nil clients: `Cleanup` of the zero `Subscriber` (the value `NewSubscriber`
returns with an error) panics on its first method call without any remote call being made,
and so does `NewSubscriber` when it is given nil clients. -/
theorem nil_client_panics :
    (Subscriber.Cleanup ({} : Subscriber Nat) World.start).1 = .panicked ∧
    (Subscriber.Cleanup ({} : Subscriber Nat) World.start).2.log = [] ∧
    (NewSubscriber 1 (fun _ => 0) (none : Option (SNSAPI Nat)) none "sometopic"
      World.start).1 = .panicked ∧
    (NewSubscriber 1 (fun _ => 0) (none : Option (SNSAPI Nat)) none "sometopic"
      World.start).2.log = [] := by
  refine ⟨rfl, rfl, rfl, rfl⟩

end Snstesting
